import Mathlib

/-!
# audiosynth-cpp: envelope, low-pass filter and oscillator

A shallow embedding of the DSP classes of `src/audio` (`Envelope`,
`LowPassFilter`, `Oscillator`) and the properties their specification states.

The C++ code computes in `float`/`double`.  The embedding is polymorphic in a
linearly ordered field `K`: it is executable at `K = ℚ` and gives the exact
real-arithmetic reading of the code at `K = ℝ`.  Rounding and overflow are
outside the model; the infinities and NaN that a division by zero brings into
the filter are modelled by `XFloat` and `FloatFilter`.  The functions of
`<cmath>` and `rand()` are passed to the code as a record `CLib K`.  The mutexes of the classes are not modelled: each
method is one atomic state transformer.
-/

namespace AudioSynth

/-! ## The C library used by the code -/

/-- The functions and constants of `<cmath>` and `<cstdlib>` the code calls:
`M_PI`, `sin`, `cos`, `asin`, `RAND_MAX`, and `rand n`, the value returned by
the `n`-th call of `rand()` since program start. -/
structure CLib (K : Type) where
  M_PI : K
  sin : K → K
  cos : K → K
  asin : K → K
  RAND_MAX : K
  rand : ℕ → K

/-! ## SynthConstants.h -/

namespace SynthConstants

/-- The constant `constexpr double TWO_PI = 2.0 * M_PI`. -/
def TWO_PI {K : Type} [LinearOrderedField K] (m : CLib K) : K := 2 * m.M_PI

/-- The constant `constexpr int SAMPLE_RATE = 44100`. -/
def SAMPLE_RATE {K : Type} [LinearOrderedField K] : K := 44100

/-- The constant `constexpr float BASE_AMPLITUDE = 0.5f`. -/
def BASE_AMPLITUDE {K : Type} [LinearOrderedField K] : K := 1 / 2

end SynthConstants

/-! ## Envelope.h / Envelope.cpp -/

/-- The data members of `class Envelope` (the mutex apart). -/
structure Envelope (K : Type) where
  attack : K
  release : K
  envelope : K
  gate : Bool
  sampleRate : K

namespace Envelope

variable {K : Type} [LinearOrderedField K]

/-- The default member initialisers of `Envelope.h`: `Envelope() = default`. -/
def default : Envelope K :=
  { attack := 1 / 100, release := 1 / 10, envelope := 0, gate := false,
    sampleRate := 44100 }

/-- The method `Envelope::setAttack`. -/
def setAttack (e : Envelope K) (a : K) : Envelope K := { e with attack := a }

/-- The method `Envelope::setRelease`. -/
def setRelease (e : Envelope K) (r : K) : Envelope K := { e with release := r }

/-- The method `Envelope::noteOn`. -/
def noteOn (e : Envelope K) : Envelope K := { e with gate := true }

/-- The method `Envelope::noteOff`. -/
def noteOff (e : Envelope K) : Envelope K := { e with gate := false }

/-- The method `Envelope::setSampleRate`. -/
def setSampleRate (e : Envelope K) (sr : K) : Envelope K := { e with sampleRate := sr }

/-- The local `attackStep` of `Envelope::process`. -/
def attackStep (e : Envelope K) : K :=
  if e.attack > 0 then 1 / (e.attack * e.sampleRate) else 1

/-- The local `releaseStep` of `Envelope::process`. -/
def releaseStep (e : Envelope K) : K :=
  if e.release > 0 then 1 / (e.release * e.sampleRate) else 1

/-- The method `Envelope::process`: the new state and the returned amplitude. -/
def process (e : Envelope K) : Envelope K × K :=
  if e.gate then
    let env1 := e.envelope + e.attackStep
    let env2 := if env1 > 1 then 1 else env1
    ({ e with envelope := env2 }, env2)
  else
    let env1 := e.envelope - e.releaseStep
    let env2 := if env1 < 0 then 0 else env1
    ({ e with envelope := env2 }, env2)

/-- The state after `k` consecutive calls of `process()`. -/
def processN (e : Envelope K) : ℕ → Envelope K
  | 0 => e
  | k + 1 => ((processN e k).process).1

/-- The value returned by the `k`-th consecutive call of `process()`, `k ≥ 1`
(for `k = 0`, no call, the stored amplitude). -/
def processOut (e : Envelope K) : ℕ → K
  | 0 => e.envelope
  | k + 1 => ((processN e k).process).2

/-- The calls a client can make on an `Envelope`. -/
inductive Op (K : Type) where
  | setAttack (a : K)
  | setRelease (r : K)
  | setSampleRate (sr : K)
  | noteOn
  | noteOff
  | process

/-- The argument ranges of the calls: attack and release times are not
negative, the sample rate is positive. -/
def Op.Valid : Op K → Prop
  | .setAttack a => 0 ≤ a
  | .setRelease r => 0 ≤ r
  | .setSampleRate sr => 0 < sr
  | _ => True

/-- One call: the new state and, for `process()`, the value returned. -/
def step (e : Envelope K) : Op K → Envelope K × Option K
  | .setAttack a => (e.setAttack a, none)
  | .setRelease r => (e.setRelease r, none)
  | .setSampleRate sr => (e.setSampleRate sr, none)
  | .noteOn => (e.noteOn, none)
  | .noteOff => (e.noteOff, none)
  | .process => ((e.process).1, some (e.process).2)

/-- A sequence of calls: the final state and the values returned by the
`process()` calls, in order. -/
def run (e : Envelope K) : List (Op K) → Envelope K × List K
  | [] => (e, [])
  | op :: ops =>
    let r := e.step op
    let rest := run r.1 ops
    (rest.1, (r.2.toList) ++ rest.2)

end Envelope

/-! ## Filter.h / Filter.cpp -/

/-- The data members of `class LowPassFilter` (the mutex apart). -/
structure LowPassFilter (K : Type) where
  sampleRate : K
  cutoff : K
  resonance : K
  lfoFrequency : K
  lfoAmount : K
  lfoPhase : K
  baseCutoff : K
  a0 : K
  a1 : K
  a2 : K
  b1 : K
  b2 : K
  x1 : K
  x2 : K
  y1 : K
  y2 : K

namespace LowPassFilter

variable {K : Type} [LinearOrderedField K]

/-- The method `LowPassFilter::updateCoefficients`. -/
def updateCoefficients (m : CLib K) (s : LowPassFilter K) : LowPassFilter K :=
  let q := (1 / 2) / (1 - s.resonance)
  let omega := 2 * m.M_PI * s.cutoff / s.sampleRate
  let alpha := m.sin omega / (2 * q)
  let cosw := m.cos omega
  let norm := 1 / (1 + alpha)
  { s with
    a0 := (1 - cosw) * (1 / 2) * norm
    a1 := (1 - cosw) * norm
    a2 := (1 - cosw) * (1 / 2) * norm
    b1 := -2 * cosw * norm
    b2 := (1 - alpha) * norm }

/-- The constructor `LowPassFilter::LowPassFilter(float sampleRate)`.  The
coefficients are not initialised before `updateCoefficients()` writes them;
the placeholder `0` is never read. -/
def new (m : CLib K) (sampleRate : K) : LowPassFilter K :=
  updateCoefficients m
    { sampleRate := sampleRate, cutoff := 20000, resonance := 0, lfoFrequency := 0,
      lfoAmount := 0, lfoPhase := 0, baseCutoff := 20000,
      a0 := 0, a1 := 0, a2 := 0, b1 := 0, b2 := 0,
      x1 := 0, x2 := 0, y1 := 0, y2 := 0 }

/-- The method `LowPassFilter::updateLFO`. -/
def updateLFO (m : CLib K) (s : LowPassFilter K) : LowPassFilter K :=
  let lfoPhase1 := s.lfoPhase + 2 * m.M_PI * s.lfoFrequency / s.sampleRate
  let lfoPhase2 := if lfoPhase1 ≥ 2 * m.M_PI then lfoPhase1 - 2 * m.M_PI else lfoPhase1
  let lfoValue := m.sin lfoPhase2
  let modulation := lfoValue * s.lfoAmount * 5000
  let cutoff1 := s.baseCutoff + modulation
  let cutoff2 := max 20 (min 20000 cutoff1)
  updateCoefficients m { s with lfoPhase := lfoPhase2, cutoff := cutoff2 }

/-- The test `lfoFrequency >= 1.0f && lfoAmount > 0.0f` of `process` and
`updateCutoffWithLFO`. -/
def lfoActive (s : LowPassFilter K) : Bool :=
  decide (s.lfoFrequency ≥ 1) && decide (s.lfoAmount > 0)

/-- The method `LowPassFilter::updateCutoffWithLFO`. -/
def updateCutoffWithLFO (m : CLib K) (s : LowPassFilter K) : LowPassFilter K :=
  if s.lfoActive then updateLFO m s
  else updateCoefficients m { s with cutoff := s.baseCutoff }

/-- The method `LowPassFilter::setCutoff`. -/
def setCutoff (m : CLib K) (s : LowPassFilter K) (newCutoff : K) : LowPassFilter K :=
  updateCutoffWithLFO m { s with baseCutoff := newCutoff }

/-- The method `LowPassFilter::setResonance`. -/
def setResonance (m : CLib K) (s : LowPassFilter K) (newResonance : K) : LowPassFilter K :=
  updateCoefficients m { s with resonance := newResonance }

/-- The method `LowPassFilter::setAutoVariationFrequency`. -/
def setAutoVariationFrequency (m : CLib K) (s : LowPassFilter K) (frequency : K) :
    LowPassFilter K :=
  updateCutoffWithLFO m { s with lfoFrequency := frequency }

/-- The method `LowPassFilter::setAutoVariationAmount`. -/
def setAutoVariationAmount (m : CLib K) (s : LowPassFilter K) (amount : K) :
    LowPassFilter K :=
  updateCutoffWithLFO m { s with lfoAmount := amount }

/-- The method `LowPassFilter::reset`. -/
def reset (s : LowPassFilter K) : LowPassFilter K :=
  { s with x1 := 0, x2 := 0, y1 := 0, y2 := 0, lfoPhase := 0 }

/-- The method `LowPassFilter::process`: the new state and the output sample. -/
def process (m : CLib K) (s : LowPassFilter K) (input : K) : LowPassFilter K × K :=
  let s1 := if s.lfoActive then updateLFO m s else s
  let output := s1.a0 * input + s1.a1 * s1.x1 + s1.a2 * s1.x2 - s1.b1 * s1.y1 - s1.b2 * s1.y2
  ({ s1 with x2 := s1.x1, x1 := input, y2 := s1.y1, y1 := output }, output)

/-- The filter run over a sequence of input samples, one `process` call each:
the final state and the output samples. -/
def processAll (m : CLib K) (s : LowPassFilter K) : List K → LowPassFilter K × List K
  | [] => (s, [])
  | x :: xs =>
    let r := process m s x
    let rest := processAll m r.1 xs
    (rest.1, r.2 :: rest.2)

/-- The four history samples are zero. -/
def Quiescent (s : LowPassFilter K) : Prop :=
  s.x1 = 0 ∧ s.x2 = 0 ∧ s.y1 = 0 ∧ s.y2 = 0

/-- The operations that update the cutoff, and `process`. -/
inductive Op (K : Type) where
  | setCutoff (x : K)
  | setAutoVariationFrequency (f : K)
  | setAutoVariationAmount (d : K)
  | process (input : K)

/-- One operation on the filter (the output of `process` is dropped). -/
def step (m : CLib K) (s : LowPassFilter K) : Op K → LowPassFilter K
  | .setCutoff x => setCutoff m s x
  | .setAutoVariationFrequency f => setAutoVariationFrequency m s f
  | .setAutoVariationAmount d => setAutoVariationAmount m s d
  | .process x => (process m s x).1

/-- The effective cutoff is in the range 20 Hz .. 20 kHz. -/
def CutoffInRange (s : LowPassFilter K) : Prop :=
  20 ≤ s.cutoff ∧ s.cutoff ≤ 20000

end LowPassFilter

/-! ## Oscillator.h / Oscillator.cpp -/

/-- The type `enum class Oscillator::Waveform`. -/
inductive Waveform where
  | Triangle
  | Noise
  | Saw
  deriving DecidableEq, Repr

/-- The data members of `class Oscillator` (the mutex apart). -/
structure Oscillator (K : Type) where
  frequency : K
  phase : K
  phaseStep : K
  waveform : Waveform
  isEnabled : Bool
  frequencyOffset : K

namespace Oscillator

variable {K : Type} [LinearOrderedField K]

/-- The method `Oscillator::updatePhaseStep`. -/
def updatePhaseStep (m : CLib K) (o : Oscillator K) : Oscillator K :=
  let effectiveFrequency := o.frequency + o.frequencyOffset
  { o with phaseStep := SynthConstants.TWO_PI m * effectiveFrequency / SynthConstants.SAMPLE_RATE }

/-- The constructor `Oscillator::Oscillator()`.  `phaseStep` is not
initialised before `updatePhaseStep()` writes it. -/
def new (m : CLib K) : Oscillator K :=
  updatePhaseStep m
    { frequency := 440, phase := 0, phaseStep := 0, waveform := Waveform.Triangle,
      isEnabled := true, frequencyOffset := 0 }

/-- The method `Oscillator::setFrequency`. -/
def setFrequency (m : CLib K) (o : Oscillator K) (freq : K) : Oscillator K :=
  updatePhaseStep m { o with frequency := freq }

/-- The method `Oscillator::setWaveform`. -/
def setWaveform (o : Oscillator K) (wf : Waveform) : Oscillator K := { o with waveform := wf }

/-- The method `Oscillator::setEnabled`. -/
def setEnabled (o : Oscillator K) (enabled : Bool) : Oscillator K :=
  { o with isEnabled := enabled }

/-- The method `Oscillator::setFrequencyOffset`. -/
def setFrequencyOffset (m : CLib K) (o : Oscillator K) (offset : K) : Oscillator K :=
  updatePhaseStep m { o with frequencyOffset := offset }

/-- The method `Oscillator::setPhase`. -/
def setPhase (o : Oscillator K) (newPhase : K) : Oscillator K := { o with phase := newPhase }

/-- The statements `phase += phaseStep; if (phase >= TWO_PI) phase -= TWO_PI;`
of the Triangle and Saw cases of `generateSample`. -/
def advancePhase (m : CLib K) (o : Oscillator K) : Oscillator K :=
  let phase1 := o.phase + o.phaseStep
  { o with phase := if phase1 ≥ SynthConstants.TWO_PI m then phase1 - SynthConstants.TWO_PI m
                    else phase1 }

/-- The method `Oscillator::generateSample`.  `rc` counts the calls of
`rand()` made so far; the result is the sample, the new oscillator state and
the new count. -/
def generateSample (m : CLib K) (o : Oscillator K) (rc : ℕ) : K × Oscillator K × ℕ :=
  if !o.isEnabled then (0, o, rc)
  else
    match o.waveform with
    | Waveform.Triangle =>
      (SynthConstants.BASE_AMPLITUDE * (m.asin (m.sin o.phase) * (2 / m.M_PI)),
        advancePhase m o, rc)
    | Waveform.Noise =>
      (SynthConstants.BASE_AMPLITUDE * (m.rand rc / m.RAND_MAX * 2 - 1), o, rc + 1)
    | Waveform.Saw =>
      (SynthConstants.BASE_AMPLITUDE * (o.phase / m.M_PI - 1), advancePhase m o, rc)

/-- The method `Oscillator::processBuffer`: the `bufferSize` samples written,
the new oscillator state and the new count of `rand()` calls. -/
def processBuffer (m : CLib K) (o : Oscillator K) (rc : ℕ) : ℕ → List K × Oscillator K × ℕ
  | 0 => ([], o, rc)
  | n + 1 =>
    let r := generateSample m o rc
    let rest := processBuffer m r.2.1 r.2.2 n
    (r.1 :: rest.1, rest.2.1, rest.2.2)

/-- The phase is in the half-open interval from 0 to 2π. -/
def PhaseInRange (m : CLib K) (o : Oscillator K) : Prop :=
  0 ≤ o.phase ∧ o.phase < SynthConstants.TWO_PI m

end Oscillator

/-- The real functions of `<cmath>`: `M_PI` is π and `sin`, `cos`, `asin` are
the real sine, cosine and arcsine; `rand` and `RAND_MAX` are left to the
caller. -/
def CLib.IsReal (m : CLib ℝ) : Prop :=
  m.M_PI = Real.pi ∧ m.sin = Real.sin ∧ m.cos = Real.cos ∧ m.asin = Real.arcsin

/-- An executable library over ℚ for evaluating the code on concrete inputs
where no transcendental function is needed: `M_PI` is the approximation 22/7,
`sin` and `asin` are the identity, `cos` is constant 1 and `rand()` returns 0. -/
def CLib.toy : CLib ℚ :=
  { M_PI := 22 / 7, sin := fun x => x, cos := fun _ => 1, asin := fun x => x,
    RAND_MAX := 2147483647, rand := fun _ => 0 }

/-! ## Sequences of filter operations, sample sequences, the parameter store -/

namespace LowPassFilter

variable {K : Type} [LinearOrderedField K]

/-- A sequence of operations on the filter, applied left to right. -/
def runOps (m : CLib K) (s : LowPassFilter K) : List (Op K) → LowPassFilter K
  | [] => s
  | op :: ops => runOps m (step m s op) ops

/-- The operation passes only base cutoffs of the range 20 Hz .. 20 kHz (the
range of the cutoff slider of the control surface) to `setCutoff`. -/
def Op.BaseInRange : Op K → Prop
  | .setCutoff x => 20 ≤ x ∧ x ≤ 20000
  | _ => True

end LowPassFilter

namespace Oscillator

variable {K : Type} [LinearOrderedField K]

/-- The sample returned by the `(k+1)`-th consecutive call of
`generateSample()`, i.e. the sample `s_k`, `k = 0, 1, ...`. -/
def nthSample (m : CLib K) (o : Oscillator K) (rc : ℕ) : ℕ → K
  | 0 => (generateSample m o rc).1
  | k + 1 => nthSample m (generateSample m o rc).2.1 (generateSample m o rc).2.2 k

/-- The oscillator state after `k` consecutive calls of `generateSample()`. -/
def nthState (m : CLib K) (o : Oscillator K) (rc : ℕ) : ℕ → Oscillator K
  | 0 => o
  | k + 1 => nthState m (generateSample m o rc).2.1 (generateSample m o rc).2.2 k

end Oscillator

/-- The filter fields of `struct SynthParams` (SynthParams.h). -/
structure SynthParams (K : Type) where
  filter_cutoff : K
  filter_resonance : K
  filter_auto_variation_frequency : K
  filter_auto_variation_amount : K

namespace AudioGenerator

variable {K : Type} [LinearOrderedField K]

/-- The filter stage of `AudioGenerator::audioCallback` before the sample
loop: the four filter fields copied from the parameter store are passed to
`setCutoff`, `setResonance`, `setAutoVariationFrequency` and
`setAutoVariationAmount`, in this order. -/
def applyFilterParams (m : CLib K) (filter : LowPassFilter K) (params : SynthParams K) :
    LowPassFilter K :=
  let f1 := LowPassFilter.setCutoff m filter params.filter_cutoff
  let f2 := LowPassFilter.setResonance m f1 params.filter_resonance
  let f3 := LowPassFilter.setAutoVariationFrequency m f2 params.filter_auto_variation_frequency
  LowPassFilter.setAutoVariationAmount m f3 params.filter_auto_variation_amount

end AudioGenerator

/-! ## TripleOscillator.h / TripleOscillator.cpp -/

/-- The data members of `class TripleOscillator` (the mutex apart). -/
structure TripleOscillator (K : Type) where
  osc1 : Oscillator K
  osc2 : Oscillator K
  osc3 : Oscillator K
  env : Envelope K

namespace TripleOscillator

variable {K : Type} [LinearOrderedField K]

/-- The constructor `TripleOscillator::TripleOscillator()`: the members are
default-constructed, then the waveforms and enabled flags are set. -/
def new (m : CLib K) : TripleOscillator K :=
  { osc1 := ((Oscillator.new m).setWaveform Waveform.Triangle).setEnabled true
    osc2 := ((Oscillator.new m).setWaveform Waveform.Saw).setEnabled false
    osc3 := ((Oscillator.new m).setWaveform Waveform.Noise).setEnabled false
    env := Envelope.default }

/-- The method `TripleOscillator::setFrequency`. -/
def setFrequency (m : CLib K) (t : TripleOscillator K) (freq : K) : TripleOscillator K :=
  { t with
    osc1 := Oscillator.setFrequency m t.osc1 freq
    osc2 := Oscillator.setFrequency m t.osc2 freq
    osc3 := Oscillator.setFrequency m t.osc3 freq }

/-- The method `TripleOscillator::setOsc1Enabled`. -/
def setOsc1Enabled (t : TripleOscillator K) (enabled : Bool) : TripleOscillator K :=
  { t with osc1 := t.osc1.setEnabled enabled }

/-- The method `TripleOscillator::setOsc2Enabled`. -/
def setOsc2Enabled (t : TripleOscillator K) (enabled : Bool) : TripleOscillator K :=
  { t with osc2 := t.osc2.setEnabled enabled }

/-- The method `TripleOscillator::setOsc3Enabled`. -/
def setOsc3Enabled (t : TripleOscillator K) (enabled : Bool) : TripleOscillator K :=
  { t with osc3 := t.osc3.setEnabled enabled }

/-- The method `TripleOscillator::setOsc1Waveform`. -/
def setOsc1Waveform (t : TripleOscillator K) (wf : Waveform) : TripleOscillator K :=
  { t with osc1 := t.osc1.setWaveform wf }

/-- The method `TripleOscillator::setOsc2Waveform`. -/
def setOsc2Waveform (t : TripleOscillator K) (wf : Waveform) : TripleOscillator K :=
  { t with osc2 := t.osc2.setWaveform wf }

/-- The method `TripleOscillator::setOsc3Waveform`. -/
def setOsc3Waveform (t : TripleOscillator K) (wf : Waveform) : TripleOscillator K :=
  { t with osc3 := t.osc3.setWaveform wf }

/-- The method `TripleOscillator::setOsc1FrequencyOffset`. -/
def setOsc1FrequencyOffset (m : CLib K) (t : TripleOscillator K) (offset : K) :
    TripleOscillator K :=
  { t with osc1 := Oscillator.setFrequencyOffset m t.osc1 offset }

/-- The method `TripleOscillator::setOsc2FrequencyOffset`. -/
def setOsc2FrequencyOffset (m : CLib K) (t : TripleOscillator K) (offset : K) :
    TripleOscillator K :=
  { t with osc2 := Oscillator.setFrequencyOffset m t.osc2 offset }

/-- The method `TripleOscillator::setOsc3FrequencyOffset`. -/
def setOsc3FrequencyOffset (m : CLib K) (t : TripleOscillator K) (offset : K) :
    TripleOscillator K :=
  { t with osc3 := Oscillator.setFrequencyOffset m t.osc3 offset }

/-- The method `TripleOscillator::setAttack`. -/
def setAttack (t : TripleOscillator K) (a : K) : TripleOscillator K :=
  { t with env := t.env.setAttack a }

/-- The method `TripleOscillator::setRelease`. -/
def setRelease (t : TripleOscillator K) (r : K) : TripleOscillator K :=
  { t with env := t.env.setRelease r }

/-- The method `TripleOscillator::noteOn`. -/
def noteOn (t : TripleOscillator K) : TripleOscillator K := { t with env := t.env.noteOn }

/-- The method `TripleOscillator::noteOff`. -/
def noteOff (t : TripleOscillator K) : TripleOscillator K := { t with env := t.env.noteOff }

/-- The method `TripleOscillator::setEnvSampleRate`. -/
def setEnvSampleRate (t : TripleOscillator K) (sr : K) : TripleOscillator K :=
  { t with env := t.env.setSampleRate sr }

/-- The mixing loop of `TripleOscillator::processBuffer` over the three
temporary buffers (each holds `bufferSize` samples): per sample one
`env.process()` call, and `buffer[i] = (t1[i] + t2[i] + t3[i]) * envValue`.
The result is the output buffer and the envelope after the loop. -/
def mixBuffers (env : Envelope K) : List K → List K → List K → List K × Envelope K
  | a :: t1, b :: t2, c :: t3 =>
    let r := env.process
    let rest := mixBuffers r.1 t1 t2 t3
    ((a + b + c) * r.2 :: rest.1, rest.2)
  | _, _, _ => ([], env)

/-- The method `TripleOscillator::processBuffer`: the `bufferSize` samples
written, the new state and the new count of `rand()` calls. -/
def processBuffer (m : CLib K) (t : TripleOscillator K) (rc : ℕ) (bufferSize : ℕ) :
    List K × TripleOscillator K × ℕ :=
  let r1 := Oscillator.processBuffer m t.osc1 rc bufferSize
  let r2 := Oscillator.processBuffer m t.osc2 r1.2.2 bufferSize
  let r3 := Oscillator.processBuffer m t.osc3 r2.2.2 bufferSize
  let mixed := mixBuffers t.env r1.1 r2.1 r3.1
  (mixed.1, { osc1 := r1.2.1, osc2 := r2.2.1, osc3 := r3.2.1, env := mixed.2 }, r3.2.2)

end TripleOscillator

/-! ## AudioGenerator.cpp -/

/-- The fields of `struct SynthParams` the render callback and the key handler
use: the filter fields and `frequency`, `attack`, `release`, `volume`. -/
structure ParamStore (K : Type) extends SynthParams K where
  frequency : K
  attack : K
  release : K
  volume : K

/-- The member initialisers of `struct SynthParams` (SynthParams.h). -/
def ParamStore.default {K : Type} [LinearOrderedField K] : ParamStore K :=
  { filter_cutoff := 20000, filter_resonance := 0, filter_auto_variation_frequency := 10,
    filter_auto_variation_amount := 0, frequency := 440, attack := 1 / 10, release := 1 / 2,
    volume := 1 }

/-- The PortAudio callback results; the code returns `paContinue`. -/
inductive PaStreamCallbackResult where
  | paContinue
  | paComplete
  | paAbort
  deriving DecidableEq, Repr

/-- The three PortAudio device steps of `AudioGenerator::init`. -/
inductive PaCall where
  | paInitialize
  | paOpenDefaultStream
  | paStartStream
  deriving DecidableEq, Repr

/-- What the audio host answers to the three device steps of one `init()`
run: the `PaError` codes returned by `Pa_Initialize`, `Pa_OpenDefaultStream`
and `Pa_StartStream` (`paNoError` is 0), and the value `Pa_OpenDefaultStream`
leaves in `stream` (`none` for a null pointer). -/
structure PaHost where
  initializeError : ℤ
  openError : ℤ
  openedStream : Option ℕ
  startError : ℤ

/-- The PortAudio constant `paNoError`. -/
def paNoError : ℤ := 0

/-- Modelled from the spec: the header `AudioGenerator.h` with the class
declaration is not among the sources. The data members are the ones
`AudioGenerator.cpp` uses: `stream` (`none` is `nullptr`), the voice mixer
`oscillator` and the `filter`; the pointer `params` to the shared parameter
store is passed to the functions as the store it points to. -/
structure AudioGenerator (K : Type) where
  stream : Option ℕ
  oscillator : TripleOscillator K
  filter : LowPassFilter K

namespace AudioGenerator

variable {K : Type} [LinearOrderedField K]

/-- The constant `constexpr int FRAMES_PER_BUFFER = 256`. -/
def FRAMES_PER_BUFFER : ℕ := 256

/-- The constructor `AudioGenerator::AudioGenerator(SynthParams*)`. -/
def new (m : CLib K) : AudioGenerator K :=
  { stream := none, oscillator := TripleOscillator.new m,
    filter := LowPassFilter.new m SynthConstants.SAMPLE_RATE }

/-- The method `AudioGenerator::init`. It returns `void`: the result is the
new state of the generator together with the device steps that were made, in
order. -/
def init (host : PaHost) (g : AudioGenerator K) : AudioGenerator K × List PaCall :=
  if host.initializeError ≠ paNoError then (g, [PaCall.paInitialize])
  else
    let g1 := { g with stream := host.openedStream }
    if host.openError ≠ paNoError then
      (g1, [PaCall.paInitialize, PaCall.paOpenDefaultStream])
    else if host.startError ≠ paNoError then
      (g1, [PaCall.paInitialize, PaCall.paOpenDefaultStream, PaCall.paStartStream])
    else
      (g1, [PaCall.paInitialize, PaCall.paOpenDefaultStream, PaCall.paStartStream])

/-- The method `AudioGenerator::setOsc1Enabled`. -/
def setOsc1Enabled (g : AudioGenerator K) (enabled : Bool) : AudioGenerator K :=
  { g with oscillator := g.oscillator.setOsc1Enabled enabled }

/-- The method `AudioGenerator::setOsc2Enabled`. -/
def setOsc2Enabled (g : AudioGenerator K) (enabled : Bool) : AudioGenerator K :=
  { g with oscillator := g.oscillator.setOsc2Enabled enabled }

/-- The method `AudioGenerator::setOsc3Enabled`. -/
def setOsc3Enabled (g : AudioGenerator K) (enabled : Bool) : AudioGenerator K :=
  { g with oscillator := g.oscillator.setOsc3Enabled enabled }

/-- The method `AudioGenerator::noteOn`. -/
def noteOn (g : AudioGenerator K) : AudioGenerator K :=
  { g with oscillator := g.oscillator.noteOn }

/-- The method `AudioGenerator::noteOff`. -/
def noteOff (g : AudioGenerator K) : AudioGenerator K :=
  { g with oscillator := g.oscillator.noteOff }

/-- The static function `AudioGenerator::calculateNoteFrequency`; `pow` is
`std::pow`. -/
def calculateNoteFrequency (pow : K → K → K) (noteNumber octave : ℤ) : K :=
  220 * pow 2 ((octave : K) + (noteNumber : K) / 12)

/-- The sample loop of `AudioGenerator::audioCallback`, from index `i`, for
`k` more frames: `buffer[i]` is filtered, scaled by `volume` and written to
`out[2*i]` and `out[2*i+1]`. Reading `buffer[i]` outside the scratch buffer is
undefined behaviour: the result is `none`. Otherwise the result is the frames
written and the filter after the loop. -/
def sampleLoop (m : CLib K) (volume : K) (buffer : List K) :
    ℕ → LowPassFilter K → ℕ → Option (List K × LowPassFilter K)
  | _, filter, 0 => some ([], filter)
  | i, filter, k + 1 =>
    match buffer[i]? with
    | none => none
    | some sample =>
      let r := LowPassFilter.process m filter sample
      match sampleLoop m volume buffer (i + 1) r.1 k with
      | none => none
      | some rest => some (r.2 * volume :: r.2 * volume :: rest.1, rest.2)

/-- The voice mixer as the callback prepares it: frequency, attack and
release from the parameter store, envelope sample rate `SAMPLE_RATE`. -/
def prepareOscillator (m : CLib K) (g : AudioGenerator K) (params : ParamStore K) :
    TripleOscillator K :=
  (((TripleOscillator.setFrequency m g.oscillator params.frequency).setAttack
    params.attack).setRelease params.release).setEnvSampleRate SynthConstants.SAMPLE_RATE

/-- The function `AudioGenerator::audioCallback` for `framesPerBuffer` frames:
the samples written to `out`, the new generator state, the new count of
`rand()` calls and the returned status; `none` when the code reads outside the
scratch buffer. -/
def audioCallback (m : CLib K) (g : AudioGenerator K) (params : ParamStore K) (rc : ℕ)
    (framesPerBuffer : ℕ) :
    Option (List K × AudioGenerator K × ℕ × PaStreamCallbackResult) :=
  let r := TripleOscillator.processBuffer m (prepareOscillator m g params) rc FRAMES_PER_BUFFER
  let filter := applyFilterParams m g.filter params.toSynthParams
  match sampleLoop m params.volume r.1 0 filter framesPerBuffer with
  | none => none
  | some res =>
    some (res.1, { g with oscillator := r.2.1, filter := res.2 }, r.2.2,
      PaStreamCallbackResult.paContinue)

/-- The interleaved stereo frames of a mono block scaled by `volume`: every
sample twice, left and right. -/
def stereo (volume : K) : List K → List K
  | [] => []
  | y :: ys => y * volume :: y * volume :: stereo volume ys

end AudioGenerator

/-! ## MainWindow.cpp: key handling -/

/-- The data members of `class MainWindow` that `handleKeyPress` reads:
whether the pointers `audioGenerator` and `params` are set, the three
oscillator check boxes and the octave. -/
structure MainWindow where
  audioGenerator : Bool
  params : Bool
  osc1_enabled : Bool
  osc2_enabled : Bool
  osc3_enabled : Bool
  octave : ℤ

namespace MainWindow

variable {K : Type} [LinearOrderedField K]

/-- The method `MainWindow::handleKeyPress`: the new parameter store and the
new generator state. -/
def handleKeyPress (pow : K → K → K) (w : MainWindow) (key : ℤ) (params : ParamStore K)
    (g : AudioGenerator K) : ParamStore K × AudioGenerator K :=
  if key ≥ 1 ∧ key ≤ 13 ∧ w.audioGenerator = true ∧ w.params = true then
    let noteNumber := key - 1
    let freq := AudioGenerator.calculateNoteFrequency pow noteNumber w.octave
    ({ params with frequency := freq },
      (((g.setOsc1Enabled w.osc1_enabled).setOsc2Enabled w.osc2_enabled).setOsc3Enabled
        w.osc3_enabled).noteOn)
  else (params, g)

/-- The method `MainWindow::handleKeyRelease`. -/
def handleKeyRelease (w : MainWindow) (g : AudioGenerator K) : AudioGenerator K :=
  if w.audioGenerator then g.noteOff else g

end MainWindow

/-! ## Filter: all public operations, the coefficient formulas of the specification -/

namespace LowPassFilter

variable {K : Type} [LinearOrderedField K]

/-- The public operations of `LowPassFilter`. -/
inductive Call (K : Type) where
  | setCutoff (x : K)
  | setResonance (r : K)
  | setAutoVariationFrequency (f : K)
  | setAutoVariationAmount (d : K)
  | reset
  | process (input : K)

/-- One public operation on the filter (the output of `process` is dropped). -/
def call (m : CLib K) (s : LowPassFilter K) : Call K → LowPassFilter K
  | .setCutoff x => setCutoff m s x
  | .setResonance r => setResonance m s r
  | .setAutoVariationFrequency f => setAutoVariationFrequency m s f
  | .setAutoVariationAmount d => setAutoVariationAmount m s d
  | .reset => reset s
  | .process x => (process m s x).1

/-- A sequence of public operations, applied left to right. -/
def runCalls (m : CLib K) (s : LowPassFilter K) : List (Call K) → LowPassFilter K
  | [] => s
  | c :: cs => runCalls m (call m s c) cs

/-- The coefficient formulas in the words of the specification, at the
current effective cutoff `fc`, resonance `r` and sample rate `fs`:
`Q = 0.5/(1-r)`, `ω = 2π*fc/fs`, `α = sin(ω)/(2Q)`, `norm = 1/(1+α)`,
`a0 = a2 = (1-cos ω)/2*norm`, `a1 = (1-cos ω)*norm`, `b1 = -2*cos ω*norm`,
`b2 = (1-α)*norm`. -/
def CoefficientsConsistent (m : CLib K) (s : LowPassFilter K) : Prop :=
  let Q := (1 / 2) / (1 - s.resonance)
  let ω := 2 * m.M_PI * s.cutoff / s.sampleRate
  let α := m.sin ω / (2 * Q)
  let norm := 1 / (1 + α)
  s.a0 = (1 - m.cos ω) / 2 * norm ∧ s.a2 = (1 - m.cos ω) / 2 * norm ∧
    s.a1 = (1 - m.cos ω) * norm ∧ s.b1 = -2 * m.cos ω * norm ∧ s.b2 = (1 - α) * norm

end LowPassFilter

/-! ## LFO step, oscillator operations -/

namespace LowPassFilter

variable {K : Type} [LinearOrderedField K]

/-- The LFO phase increment `2.0f * M_PI * lfoFrequency / sampleRate` of
`LowPassFilter::updateLFO`. -/
def lfoStep (m : CLib K) (s : LowPassFilter K) : K :=
  2 * m.M_PI * s.lfoFrequency / s.sampleRate

end LowPassFilter

namespace Oscillator

variable {K : Type} [LinearOrderedField K]

/-- The operations of `Oscillator` that change its state. -/
inductive Call (K : Type) where
  | setFrequency (freq : K)
  | setFrequencyOffset (offset : K)
  | setWaveform (wf : Waveform)
  | setEnabled (enabled : Bool)
  | setPhase (newPhase : K)
  | processBuffer (bufferSize : ℕ)

/-- One operation on the oscillator; the state is the oscillator and the
count of `rand()` calls made so far (the samples of `processBuffer` are
dropped). -/
def call (m : CLib K) (st : Oscillator K × ℕ) : Call K → Oscillator K × ℕ
  | .setFrequency freq => (setFrequency m st.1 freq, st.2)
  | .setFrequencyOffset offset => (setFrequencyOffset m st.1 offset, st.2)
  | .setWaveform wf => (st.1.setWaveform wf, st.2)
  | .setEnabled enabled => (st.1.setEnabled enabled, st.2)
  | .setPhase newPhase => (st.1.setPhase newPhase, st.2)
  | .processBuffer n => (processBuffer m st.1 st.2 n).2

/-- A sequence of operations, applied left to right. -/
def runCalls (m : CLib K) (st : Oscillator K × ℕ) : List (Call K) → Oscillator K × ℕ
  | [] => st
  | c :: cs => runCalls m (call m st c) cs

/-- The stored phase increment is `2π * (frequency + frequencyOffset) / 44100`:
the offset is added to the frequency in Hz. -/
def PhaseStepConsistent (m : CLib K) (o : Oscillator K) : Prop :=
  o.phaseStep = 2 * m.M_PI * (o.frequency + o.frequencyOffset) / 44100

end Oscillator

/-! ## Filter.cpp with the infinities and NaN of `float` -/

/-- A `float` value as far as infinities and NaN go: a finite value (kept
exact: rounding and overflow are not modelled), plus or minus infinity, or
NaN. Zero carries no sign: a zero divisor counts as `+0`. -/
inductive XFloat (K : Type) where
  | fin (x : K)
  | inf (negative : Bool)
  | nan

namespace XFloat

variable {K : Type} [LinearOrderedField K]

/-- The value is a finite number. -/
def isFinite : XFloat K → Bool
  | fin _ => true
  | _ => false

/-- Unary minus. -/
def neg : XFloat K → XFloat K
  | fin x => fin (-x)
  | inf n => inf (!n)
  | nan => nan

/-- Addition: `inf + (-inf)` is NaN. -/
def add : XFloat K → XFloat K → XFloat K
  | fin x, fin y => fin (x + y)
  | fin _, inf n => inf n
  | inf n, fin _ => inf n
  | inf n, inf k => if n = k then inf n else nan
  | _, _ => nan

/-- Subtraction. -/
def sub (a b : XFloat K) : XFloat K := add a (neg b)

/-- Multiplication: `inf * 0` is NaN. -/
def mul : XFloat K → XFloat K → XFloat K
  | fin x, fin y => fin (x * y)
  | fin x, inf n => if x = 0 then nan else inf (xor n (decide (x < 0)))
  | inf n, fin y => if y = 0 then nan else inf (xor n (decide (y < 0)))
  | inf n, inf k => inf (xor n k)
  | _, _ => nan

/-- Division: a nonzero finite value over zero is an infinity, `0/0` and
`inf/inf` are NaN, a finite value over an infinity is 0. -/
def div : XFloat K → XFloat K → XFloat K
  | fin x, fin y =>
    if y = 0 then (if x = 0 then nan else inf (decide (x < 0))) else fin (x / y)
  | fin _, inf _ => fin 0
  | inf n, fin y => inf (xor n (decide (y < 0)))
  | _, _ => nan

/-- The comparison `a < b`: false when an operand is NaN. -/
def lt : XFloat K → XFloat K → Bool
  | fin x, fin y => decide (x < y)
  | fin _, inf n => !n
  | inf n, fin _ => n
  | inf n, inf k => n && !k
  | _, _ => false

/-- The comparison `a <= b`: false when an operand is NaN. -/
def le : XFloat K → XFloat K → Bool
  | fin x, fin y => decide (x ≤ y)
  | fin _, inf n => !n
  | inf n, fin _ => n
  | inf n, inf k => n || !k
  | _, _ => false

/-- The function `std::max(a, b)`, which is `(a < b) ? b : a`. -/
def stdMax (a b : XFloat K) : XFloat K := if lt a b then b else a

/-- The function `std::min(a, b)`, which is `(b < a) ? b : a`. -/
def stdMin (a b : XFloat K) : XFloat K := if lt b a then b else a

/-- The function `sin`: NaN outside the finite values. -/
def sin (m : CLib K) : XFloat K → XFloat K
  | fin x => fin (m.sin x)
  | _ => nan

/-- The function `cos`: NaN outside the finite values. -/
def cos (m : CLib K) : XFloat K → XFloat K
  | fin x => fin (m.cos x)
  | _ => nan

end XFloat

/-- The methods of `LowPassFilter` (Filter.cpp) once more, line by line, on
states whose fields are `XFloat` values, so that a division by zero gives an
infinity and `inf * 0` gives NaN as in the `float` code. -/
def FloatFilter (K : Type) : Type := LowPassFilter (XFloat K)

namespace FloatFilter

variable {K : Type} [LinearOrderedField K]

open XFloat

/-- The method `LowPassFilter::updateCoefficients`. -/
def updateCoefficients (m : CLib K) (s : LowPassFilter (XFloat K)) : LowPassFilter (XFloat K) :=
  let q := div (fin (1 / 2)) (sub (fin 1) s.resonance)
  let omega := div (mul (mul (fin 2) (fin m.M_PI)) s.cutoff) s.sampleRate
  let alpha := div (XFloat.sin m omega) (mul (fin 2) q)
  let cosw := XFloat.cos m omega
  let norm := div (fin 1) (add (fin 1) alpha)
  { s with
    a0 := mul (mul (sub (fin 1) cosw) (fin (1 / 2))) norm
    a1 := mul (sub (fin 1) cosw) norm
    a2 := mul (mul (sub (fin 1) cosw) (fin (1 / 2))) norm
    b1 := mul (mul (fin (-2)) cosw) norm
    b2 := mul (sub (fin 1) alpha) norm }

/-- The constructor `LowPassFilter::LowPassFilter(float sampleRate)`; the
coefficient placeholders are overwritten by `updateCoefficients()`. -/
def new (m : CLib K) (sampleRate : XFloat K) : LowPassFilter (XFloat K) :=
  updateCoefficients m
    { sampleRate := sampleRate, cutoff := fin 20000, resonance := fin 0,
      lfoFrequency := fin 0, lfoAmount := fin 0, lfoPhase := fin 0, baseCutoff := fin 20000,
      a0 := fin 0, a1 := fin 0, a2 := fin 0, b1 := fin 0, b2 := fin 0,
      x1 := fin 0, x2 := fin 0, y1 := fin 0, y2 := fin 0 }

/-- The method `LowPassFilter::updateLFO`. -/
def updateLFO (m : CLib K) (s : LowPassFilter (XFloat K)) : LowPassFilter (XFloat K) :=
  let lfoPhase1 :=
    add s.lfoPhase (div (mul (mul (fin 2) (fin m.M_PI)) s.lfoFrequency) s.sampleRate)
  let lfoPhase2 :=
    if le (mul (fin 2) (fin m.M_PI)) lfoPhase1 then sub lfoPhase1 (mul (fin 2) (fin m.M_PI))
    else lfoPhase1
  let lfoValue := XFloat.sin m lfoPhase2
  let modulation := mul (mul lfoValue s.lfoAmount) (fin 5000)
  let cutoff1 := add s.baseCutoff modulation
  let cutoff2 := stdMax (fin 20) (stdMin (fin 20000) cutoff1)
  updateCoefficients m { s with lfoPhase := lfoPhase2, cutoff := cutoff2 }

/-- The test `lfoFrequency >= 1.0f && lfoAmount > 0.0f`. -/
def lfoActive (s : LowPassFilter (XFloat K)) : Bool :=
  le (fin 1) s.lfoFrequency && lt (fin 0) s.lfoAmount

/-- The method `LowPassFilter::updateCutoffWithLFO`. -/
def updateCutoffWithLFO (m : CLib K) (s : LowPassFilter (XFloat K)) :
    LowPassFilter (XFloat K) :=
  if lfoActive s then updateLFO m s
  else updateCoefficients m { s with cutoff := s.baseCutoff }

/-- The method `LowPassFilter::setCutoff`. -/
def setCutoff (m : CLib K) (s : LowPassFilter (XFloat K)) (newCutoff : XFloat K) :
    LowPassFilter (XFloat K) :=
  updateCutoffWithLFO m { s with baseCutoff := newCutoff }

/-- The method `LowPassFilter::setResonance`. -/
def setResonance (m : CLib K) (s : LowPassFilter (XFloat K)) (newResonance : XFloat K) :
    LowPassFilter (XFloat K) :=
  updateCoefficients m { s with resonance := newResonance }

/-- The method `LowPassFilter::setAutoVariationFrequency`. -/
def setAutoVariationFrequency (m : CLib K) (s : LowPassFilter (XFloat K))
    (frequency : XFloat K) : LowPassFilter (XFloat K) :=
  updateCutoffWithLFO m { s with lfoFrequency := frequency }

/-- The method `LowPassFilter::setAutoVariationAmount`. -/
def setAutoVariationAmount (m : CLib K) (s : LowPassFilter (XFloat K)) (amount : XFloat K) :
    LowPassFilter (XFloat K) :=
  updateCutoffWithLFO m { s with lfoAmount := amount }

/-- The state whose coefficients `process` uses for the next sample: the one
`updateLFO` leaves when the LFO is active, the stored one otherwise. -/
def inForce (m : CLib K) (s : LowPassFilter (XFloat K)) : LowPassFilter (XFloat K) :=
  if lfoActive s then updateLFO m s else s

/-- The method `LowPassFilter::process`: the new state and the output sample. -/
def process (m : CLib K) (s : LowPassFilter (XFloat K)) (input : XFloat K) :
    LowPassFilter (XFloat K) × XFloat K :=
  let s1 := inForce m s
  let output :=
    sub (sub (add (add (mul s1.a0 input) (mul s1.a1 s1.x1)) (mul s1.a2 s1.x2))
      (mul s1.b1 s1.y1)) (mul s1.b2 s1.y2)
  ({ s1 with x2 := s1.x1, x1 := input, y2 := s1.y1, y1 := output }, output)

/-- The filter run over a sequence of input samples, one `process` call each:
the final state and the output samples. -/
def processAll (m : CLib K) (s : LowPassFilter (XFloat K)) :
    List (XFloat K) → LowPassFilter (XFloat K) × List (XFloat K)
  | [] => (s, [])
  | x :: xs =>
    let r := process m s x
    let rest := processAll m r.1 xs
    (rest.1, r.2 :: rest.2)

/-- The state after `k` calls `process(0)`. -/
def zeroRun (m : CLib K) (s : LowPassFilter (XFloat K)) : ℕ → LowPassFilter (XFloat K)
  | 0 => s
  | k + 1 => zeroRun m (process m s (fin 0)).1 k

/-- The four history samples are zero. -/
def Quiescent (s : LowPassFilter (XFloat K)) : Prop :=
  s.x1 = fin 0 ∧ s.x2 = fin 0 ∧ s.y1 = fin 0 ∧ s.y2 = fin 0

/-- The five coefficients are finite numbers. -/
def CoefficientsFinite (s : LowPassFilter (XFloat K)) : Prop :=
  s.a0.isFinite = true ∧ s.a1.isFinite = true ∧ s.a2.isFinite = true ∧
    s.b1.isFinite = true ∧ s.b2.isFinite = true

end FloatFilter

/-! ## Envelope: closed forms and range -/

namespace Envelope

variable {K : Type} [LinearOrderedField K]

theorem attackStep_nonneg (e : Envelope K) (hsr : 0 < e.sampleRate) : 0 ≤ e.attackStep := by
  unfold attackStep
  split_ifs with h
  · exact le_of_lt (one_div_pos.mpr (mul_pos h hsr))
  · exact zero_le_one

theorem releaseStep_nonneg (e : Envelope K) (hsr : 0 < e.sampleRate) : 0 ≤ e.releaseStep := by
  unfold releaseStep
  split_ifs with h
  · exact le_of_lt (one_div_pos.mpr (mul_pos h hsr))
  · exact zero_le_one

theorem process_snd (e : Envelope K) : (e.process).2 = (e.process).1.envelope := by
  unfold process
  split_ifs <;> rfl

theorem process_params (e : Envelope K) :
    (e.process).1.attack = e.attack ∧ (e.process).1.release = e.release ∧
      (e.process).1.gate = e.gate ∧ (e.process).1.sampleRate = e.sampleRate := by
  unfold process
  split_ifs <;> exact ⟨rfl, rfl, rfl, rfl⟩

theorem processN_params (e : Envelope K) (k : ℕ) :
    (e.processN k).attack = e.attack ∧ (e.processN k).release = e.release ∧
      (e.processN k).gate = e.gate ∧ (e.processN k).sampleRate = e.sampleRate := by
  induction k with
  | zero => exact ⟨rfl, rfl, rfl, rfl⟩
  | succ k ih =>
    obtain ⟨h1, h2, h3, h4⟩ := process_params (e.processN k)
    obtain ⟨i1, i2, i3, i4⟩ := ih
    exact ⟨h1.trans i1, h2.trans i2, h3.trans i3, h4.trans i4⟩

theorem processOut_eq (e : Envelope K) (k : ℕ) : e.processOut k = (e.processN k).envelope := by
  cases k with
  | zero => rfl
  | succ k => exact process_snd _

theorem process_gate_on (e : Envelope K) (hg : e.gate = true) :
    (e.process).1.envelope = min 1 (e.envelope + e.attackStep) := by
  unfold process
  rw [if_pos hg]
  simp only
  split_ifs with h
  · exact (min_eq_left (le_of_lt h)).symm
  · exact (min_eq_right (not_lt.mp h)).symm

theorem process_gate_off (e : Envelope K) (hg : e.gate = false) :
    (e.process).1.envelope = max 0 (e.envelope - e.releaseStep) := by
  unfold process
  rw [if_neg (by simp [hg])]
  simp only
  split_ifs with h
  · exact (max_eq_left (le_of_lt h)).symm
  · exact (max_eq_right (not_lt.mp h)).symm

theorem attackStep_processN (e : Envelope K) (k : ℕ) :
    (e.processN k).attackStep = e.attackStep := by
  obtain ⟨h1, -, -, h4⟩ := processN_params e k
  unfold attackStep
  rw [h1, h4]

theorem releaseStep_processN (e : Envelope K) (k : ℕ) :
    (e.processN k).releaseStep = e.releaseStep := by
  obtain ⟨-, h2, -, h4⟩ := processN_params e k
  unfold releaseStep
  rw [h2, h4]

theorem processN_attack (e : Envelope K) (hg : e.gate = true) (hs : 0 ≤ e.attackStep)
    (k : ℕ) (hk : 1 ≤ k) :
    (e.processN k).envelope = min 1 (e.envelope + k * e.attackStep) := by
  induction k with
  | zero => omega
  | succ k ih =>
    have hstep : (e.processN (k + 1)).envelope =
        min 1 ((e.processN k).envelope + e.attackStep) := by
      have hgk : (e.processN k).gate = true := by
        rw [(processN_params e k).2.2.1]; exact hg
      have := process_gate_on (e.processN k) hgk
      rw [attackStep_processN] at this
      exact this
    rw [hstep]
    rcases Nat.eq_zero_or_pos k with h0 | hpos
    · subst h0
      simp [processN]
    · rw [ih hpos]
      push_cast
      rcases le_total 1 (e.envelope + k * e.attackStep) with hle | hle
      · rw [min_eq_left hle, min_eq_left (by linarith), min_eq_left (by linarith)]
      · rw [min_eq_right hle]
        congr 1
        ring

theorem processN_release (e : Envelope K) (hg : e.gate = false) (hs : 0 ≤ e.releaseStep)
    (k : ℕ) (hk : 1 ≤ k) :
    (e.processN k).envelope = max 0 (e.envelope - k * e.releaseStep) := by
  induction k with
  | zero => omega
  | succ k ih =>
    have hstep : (e.processN (k + 1)).envelope =
        max 0 ((e.processN k).envelope - e.releaseStep) := by
      have hgk : (e.processN k).gate = false := by
        rw [(processN_params e k).2.2.1]; exact hg
      have := process_gate_off (e.processN k) hgk
      rw [releaseStep_processN] at this
      exact this
    rw [hstep]
    rcases Nat.eq_zero_or_pos k with h0 | hpos
    · subst h0
      simp [processN]
    · rw [ih hpos]
      push_cast
      rcases le_total (e.envelope - k * e.releaseStep) 0 with hle | hle
      · rw [max_eq_left hle, max_eq_left (by linarith), max_eq_left (by linarith)]
      · rw [max_eq_right hle]
        congr 1
        ring

/-- The invariant behind the range claim: a positive sample rate and an
amplitude in the unit interval. -/
theorem process_range (e : Envelope K) (hsr : 0 < e.sampleRate)
    (h0 : 0 ≤ e.envelope) (h1 : e.envelope ≤ 1) :
    0 ≤ (e.process).1.envelope ∧ (e.process).1.envelope ≤ 1 := by
  have ha := attackStep_nonneg e hsr
  have hr := releaseStep_nonneg e hsr
  cases hg : e.gate with
  | true =>
    rw [process_gate_on e hg]
    exact ⟨le_min zero_le_one (by linarith), min_le_left _ _⟩
  | false =>
    rw [process_gate_off e hg]
    exact ⟨le_max_left _ _, max_le zero_le_one (by linarith)⟩

theorem step_range (e : Envelope K) (op : Op K) (hop : op.Valid) (hsr : 0 < e.sampleRate)
    (h0 : 0 ≤ e.envelope) (h1 : e.envelope ≤ 1) :
    0 < (e.step op).1.sampleRate ∧ 0 ≤ (e.step op).1.envelope ∧ (e.step op).1.envelope ≤ 1 ∧
      ∀ y ∈ (e.step op).2, 0 ≤ y ∧ y ≤ 1 := by
  cases op with
  | setAttack a => exact ⟨hsr, h0, h1, by simp [step]⟩
  | setRelease r => exact ⟨hsr, h0, h1, by simp [step]⟩
  | setSampleRate sr => exact ⟨hop, h0, h1, by simp [step]⟩
  | noteOn => exact ⟨hsr, h0, h1, by simp [step]⟩
  | noteOff => exact ⟨hsr, h0, h1, by simp [step]⟩
  | process =>
    have hp := process_range e hsr h0 h1
    refine ⟨?_, hp.1, hp.2, ?_⟩
    · show 0 < (e.process).1.sampleRate
      rw [(process_params e).2.2.2]; exact hsr
    · intro y hy
      simp only [step, Option.mem_def, Option.some.injEq] at hy
      rw [← hy, process_snd]
      exact hp

theorem run_range (ops : List (Op K)) :
    ∀ e : Envelope K, (∀ op ∈ ops, op.Valid) → 0 < e.sampleRate → 0 ≤ e.envelope →
      e.envelope ≤ 1 →
      (0 ≤ (e.run ops).1.envelope ∧ (e.run ops).1.envelope ≤ 1) ∧
        ∀ y ∈ (e.run ops).2, 0 ≤ y ∧ y ≤ 1 := by
  induction ops with
  | nil =>
    intro e _ _ h0 h1
    exact ⟨⟨h0, h1⟩, by simp [run]⟩
  | cons op ops ih =>
    intro e hv hsr h0 h1
    obtain ⟨s1, s2, s3, s4⟩ := step_range e op (hv op (List.mem_cons_self _ _)) hsr h0 h1
    obtain ⟨r1, r2⟩ := ih (e.step op).1 (fun o ho => hv o (List.mem_cons_of_mem _ ho)) s1 s2 s3
    refine ⟨r1, ?_⟩
    intro y hy
    simp only [run, List.mem_append, Option.mem_toList] at hy
    rcases hy with hy | hy
    · exact s4 y hy
    · exact r2 y hy

/-- C1. Attack closed form: from amplitude 0, with attack time `a ≥ 0`, sample
rate `sr > 0` and the gate set by `noteOn()`, the `k`-th consecutive call of
`process()` (`k ≥ 1`) returns `min(1, k*step)`, where `step = 1/(a*sr)` if
`a > 0` and `step = 1` otherwise; with `a = 0` the first call returns 1. -/
theorem C1_attack_closed_form (a sr : K) (e : Envelope K) (k : ℕ) (ha : 0 ≤ a)
    (hsr : 0 < sr) (he : e.envelope = 0) (hk : 1 ≤ k) :
    (((e.setAttack a).setSampleRate sr).noteOn).processOut k
        = min 1 (k * (if a > 0 then 1 / (a * sr) else 1)) ∧
      (a = 0 → (((e.setAttack a).setSampleRate sr).noteOn).processOut 1 = 1) := by
  have _ := ha
  have key : ∀ j : ℕ, 1 ≤ j → (((e.setAttack a).setSampleRate sr).noteOn).processOut j
      = min 1 (j * (if a > 0 then 1 / (a * sr) else 1)) := by
    intro j hj
    rw [processOut_eq, processN_attack _ rfl (attackStep_nonneg _ hsr) j hj]
    simp [noteOn, setSampleRate, setAttack, attackStep, he]
  refine ⟨key k hk, ?_⟩
  intro h0
  rw [key 1 le_rfl, h0]
  simp

/-- C1 at attack 1/2 s, sample rate 4 Hz, third call, over ℚ. -/
theorem C1_attack_closed_form_witness :
    ((((Envelope.default : Envelope ℚ).setAttack (1 / 2)).setSampleRate 4).noteOn).processOut 3
        = min 1 (((3 : ℕ) : ℚ) * (if (1 / 2 : ℚ) > 0 then 1 / ((1 / 2) * 4) else 1)) ∧
      ((1 / 2 : ℚ) = 0 →
        ((((Envelope.default : Envelope ℚ).setAttack (1 / 2)).setSampleRate 4).noteOn).processOut 1
          = 1) :=
  C1_attack_closed_form (1 / 2) 4 Envelope.default 3 (by norm_num) (by norm_num) rfl (by norm_num)

/-- C2. Release closed form: from amplitude `e` in [0,1], with release time
`r ≥ 0`, sample rate `sr > 0` and the gate cleared by `noteOff()`, the `k`-th
consecutive call of `process()` (`k ≥ 1`) returns `max(0, e - k*step)`, where
`step = 1/(r*sr)` if `r > 0` and `step = 1` otherwise; with `r = 0` the first
call returns 0. -/
theorem C2_release_closed_form (r sr : K) (e : Envelope K) (k : ℕ) (hr : 0 ≤ r)
    (hsr : 0 < sr) (he0 : 0 ≤ e.envelope) (he1 : e.envelope ≤ 1) (hk : 1 ≤ k) :
    (((e.setRelease r).setSampleRate sr).noteOff).processOut k
        = max 0 (e.envelope - k * (if r > 0 then 1 / (r * sr) else 1)) ∧
      (r = 0 → (((e.setRelease r).setSampleRate sr).noteOff).processOut 1 = 0) := by
  have _ := hr
  have _ := he0
  have key : ∀ j : ℕ, 1 ≤ j → (((e.setRelease r).setSampleRate sr).noteOff).processOut j
      = max 0 (e.envelope - j * (if r > 0 then 1 / (r * sr) else 1)) := by
    intro j hj
    rw [processOut_eq, processN_release _ rfl (releaseStep_nonneg _ hsr) j hj]
    simp [noteOff, setSampleRate, setRelease, releaseStep]
  refine ⟨key k hk, ?_⟩
  intro h0
  rw [key 1 le_rfl, h0]
  simp [he1]

/-- C2 from amplitude 1 at release 1/2 s, sample rate 4 Hz, first call, over ℚ. -/
theorem C2_release_closed_form_witness :
    ((((Envelope.mk (1 / 100) (1 / 10) 1 true 44100 : Envelope ℚ).setRelease (1 / 2)).setSampleRate
          4).noteOff).processOut 1
        = max 0 ((Envelope.mk (1 / 100) (1 / 10) 1 true 44100 : Envelope ℚ).envelope
            - ((1 : ℕ) : ℚ) * (if (1 / 2 : ℚ) > 0 then 1 / ((1 / 2) * 4) else 1)) ∧
      ((1 / 2 : ℚ) = 0 →
        ((((Envelope.mk (1 / 100) (1 / 10) 1 true 44100 : Envelope ℚ).setRelease
          (1 / 2)).setSampleRate 4).noteOff).processOut 1 = 0) :=
  C2_release_closed_form (1 / 2) 4 (Envelope.mk (1 / 100) (1 / 10) 1 true 44100) 1
    (by norm_num) (by norm_num) (by norm_num) (by norm_num) le_rfl

/-- C3. Range invariant: from a default-constructed envelope, after every
sequence of `setAttack(a)`, `setRelease(r)` (`a, r ≥ 0`), `setSampleRate(sr)`
(`sr > 0`), `noteOn()`, `noteOff()` and `process()` calls, the stored
amplitude and every value returned by `process()` lie in [0, 1]. -/
theorem C3_envelope_range (ops : List (Op K)) (hops : ∀ op ∈ ops, op.Valid) :
    (0 ≤ ((Envelope.default : Envelope K).run ops).1.envelope ∧
        ((Envelope.default : Envelope K).run ops).1.envelope ≤ 1) ∧
      ∀ y ∈ ((Envelope.default : Envelope K).run ops).2, 0 ≤ y ∧ y ≤ 1 :=
  run_range ops Envelope.default hops (by simp [Envelope.default]) (by simp [Envelope.default])
    (by simp [Envelope.default])

/-- C3 on the calls `setAttack(0); noteOn(); process(); noteOff(); process()`
over ℚ. -/
theorem C3_envelope_range_witness :
    (0 ≤ ((Envelope.default : Envelope ℚ).run
          [Op.setAttack 0, Op.noteOn, Op.process, Op.noteOff, Op.process]).1.envelope ∧
        ((Envelope.default : Envelope ℚ).run
          [Op.setAttack 0, Op.noteOn, Op.process, Op.noteOff, Op.process]).1.envelope ≤ 1) ∧
      ∀ y ∈ ((Envelope.default : Envelope ℚ).run
          [Op.setAttack 0, Op.noteOn, Op.process, Op.noteOff, Op.process]).2, 0 ≤ y ∧ y ≤ 1 :=
  C3_envelope_range [Op.setAttack 0, Op.noteOn, Op.process, Op.noteOff, Op.process]
    (by simp [Op.Valid])

end Envelope

/-! ## Low-pass filter -/

namespace LowPassFilter

variable {K : Type} [LinearOrderedField K]

theorem updateCoefficients_frame (m : CLib K) (s : LowPassFilter K) :
    (updateCoefficients m s).sampleRate = s.sampleRate ∧
      (updateCoefficients m s).cutoff = s.cutoff ∧
      (updateCoefficients m s).resonance = s.resonance ∧
      (updateCoefficients m s).lfoFrequency = s.lfoFrequency ∧
      (updateCoefficients m s).lfoAmount = s.lfoAmount ∧
      (updateCoefficients m s).lfoPhase = s.lfoPhase ∧
      (updateCoefficients m s).baseCutoff = s.baseCutoff ∧
      (updateCoefficients m s).x1 = s.x1 ∧ (updateCoefficients m s).x2 = s.x2 ∧
      (updateCoefficients m s).y1 = s.y1 ∧ (updateCoefficients m s).y2 = s.y2 :=
  ⟨rfl, rfl, rfl, rfl, rfl, rfl, rfl, rfl, rfl, rfl, rfl⟩

theorem updateLFO_history (m : CLib K) (s : LowPassFilter K) :
    (updateLFO m s).x1 = s.x1 ∧ (updateLFO m s).x2 = s.x2 ∧
      (updateLFO m s).y1 = s.y1 ∧ (updateLFO m s).y2 = s.y2 :=
  ⟨rfl, rfl, rfl, rfl⟩

theorem updateLFO_cutoff (m : CLib K) (s : LowPassFilter K) :
    CutoffInRange (updateLFO m s) := by
  show 20 ≤ max 20 (min 20000 _) ∧ max 20 (min 20000 _) ≤ (20000 : K)
  exact ⟨le_max_left _ _, max_le (by norm_num) (min_le_left _ _)⟩

theorem process_quiescent (m : CLib K) (s : LowPassFilter K) (hq : s.Quiescent) :
    (process m s 0).2 = 0 ∧ (process m s 0).1.Quiescent := by
  obtain ⟨h1, h2, h3, h4⟩ := hq
  have hs1 : ∀ s1 : LowPassFilter K, s1.x1 = 0 → s1.x2 = 0 → s1.y1 = 0 → s1.y2 = 0 →
      s1.a0 * 0 + s1.a1 * s1.x1 + s1.a2 * s1.x2 - s1.b1 * s1.y1 - s1.b2 * s1.y2 = 0 := by
    intro s1 e1 e2 e3 e4
    rw [e1, e2, e3, e4]; ring
  unfold process
  split_ifs with h
  · obtain ⟨u1, u2, u3, u4⟩ := updateLFO_history m s
    have := hs1 (updateLFO m s) (u1.trans h1) (u2.trans h2) (u3.trans h3) (u4.trans h4)
    exact ⟨this, rfl, u1.trans h1, this, u3.trans h3⟩
  · have := hs1 s h1 h2 h3 h4
    exact ⟨this, rfl, h1, this, h3⟩

theorem processAll_quiescent (m : CLib K) (n : ℕ) :
    ∀ s : LowPassFilter K, s.Quiescent →
      (processAll m s (List.replicate n 0)).2 = List.replicate n 0 ∧
        (processAll m s (List.replicate n 0)).1.Quiescent := by
  induction n with
  | zero => intro s hq; exact ⟨rfl, hq⟩
  | succ n ih =>
    intro s hq
    obtain ⟨p1, p2⟩ := process_quiescent m s hq
    obtain ⟨i1, i2⟩ := ih (process m s 0).1 p2
    refine ⟨?_, i2⟩
    show (process m s 0).2 :: (processAll m (process m s 0).1 (List.replicate n 0)).2 = _
    rw [p1, i1]; rfl

/-- In exact arithmetic, where no coefficient is infinite or NaN: a filter
whose four history samples are zero returns 0 from `process(0)` and keeps the
four history samples zero, whatever the cutoff, resonance, LFO rate and LFO
depth; hence every zero-input sequence gives an all-zero output sequence. -/
theorem quiescent_exact (m : CLib K) (s : LowPassFilter K) (n : ℕ)
    (hq : s.Quiescent) :
    ((process m s 0).2 = 0 ∧ (process m s 0).1.Quiescent) ∧
      (processAll m s (List.replicate n 0)).2 = List.replicate n 0 ∧
      (processAll m s (List.replicate n 0)).1.Quiescent :=
  ⟨process_quiescent m s hq, processAll_quiescent m n s hq⟩

theorem unity_of_norm (m : CLib ℝ) (s : LowPassFilter ℝ)
    (h : 1 + m.sin (2 * m.M_PI * s.cutoff / s.sampleRate) / (2 * ((1 / 2) / (1 - s.resonance))) ≠ 0) :
    (updateCoefficients m s).a0 + (updateCoefficients m s).a1 + (updateCoefficients m s).a2
      = 1 + (updateCoefficients m s).b1 + (updateCoefficients m s).b2 := by
  have hn : (1 + m.sin (2 * m.M_PI * s.cutoff / s.sampleRate) / (2 * ((1 / 2) / (1 - s.resonance))))
      * (1 / (1 + m.sin (2 * m.M_PI * s.cutoff / s.sampleRate)
          / (2 * ((1 / 2) / (1 - s.resonance))))) = 1 := mul_one_div_cancel h
  simp only [updateCoefficients]
  linear_combination hn

theorem alpha_pos (m : CLib ℝ) (hm : m.IsReal) (s : LowPassFilter ℝ)
    (hsr : s.sampleRate = 44100) (hc0 : 20 ≤ s.cutoff) (hc1 : s.cutoff ≤ 20000)
    (hr1 : s.resonance < 1) :
    0 < m.sin (2 * m.M_PI * s.cutoff / s.sampleRate) / (2 * ((1 / 2) / (1 - s.resonance))) := by
  obtain ⟨hpi, hsin, -, -⟩ := hm
  rw [hpi, hsin, hsr]
  have hp := Real.pi_pos
  have hω0 : 0 < 2 * Real.pi * s.cutoff / 44100 := by
    apply div_pos _ (by norm_num)
    exact mul_pos (by linarith) (by linarith)
  have hω1 : 2 * Real.pi * s.cutoff / 44100 < Real.pi := by
    rw [div_lt_iff₀ (by norm_num)]
    nlinarith
  have hs := Real.sin_pos_of_pos_of_lt_pi hω0 hω1
  have hq : 0 < 2 * ((1 / 2 : ℝ) / (1 - s.resonance)) :=
    mul_pos (by norm_num) (div_pos (by norm_num) (by linarith))
  exact div_pos hs hq

theorem unity_dc (m : CLib ℝ) (hm : m.IsReal) (s : LowPassFilter ℝ)
    (hsr : s.sampleRate = 44100) (hc0 : 20 ≤ s.cutoff) (hc1 : s.cutoff ≤ 20000)
    (hr1 : s.resonance < 1) :
    (updateCoefficients m s).a0 + (updateCoefficients m s).a1 + (updateCoefficients m s).a2
      = 1 + (updateCoefficients m s).b1 + (updateCoefficients m s).b2 :=
  unity_of_norm m s (by have := alpha_pos m hm s hsr hc0 hc1 hr1; linarith)

/-- C5. Unity DC gain: at sample rate 44100, for every cutoff in [20, 20000]
and resonance in [0, 1), the coefficients computed by `updateCoefficients`
(with the real sine and cosine) satisfy `a0 + a1 + a2 = 1 + b1 + b2`, and a
constant signal is a fixed point: with `x1 = x2 = y1 = y2 = c`, `process(c)`
returns `c`. -/
theorem C5_unity_dc_gain (m : CLib ℝ) (hm : m.IsReal) (s : LowPassFilter ℝ)
    (hsr : s.sampleRate = 44100) (hc0 : 20 ≤ s.cutoff) (hc1 : s.cutoff ≤ 20000)
    (hr0 : 0 ≤ s.resonance) (hr1 : s.resonance < 1) :
    (updateCoefficients m s).a0 + (updateCoefficients m s).a1 + (updateCoefficients m s).a2
        = 1 + (updateCoefficients m s).b1 + (updateCoefficients m s).b2 ∧
      ∀ c : ℝ,
        (process m { updateCoefficients m s with x1 := c, x2 := c, y1 := c, y2 := c } c).2 = c := by
  have _ := hr0
  have hu := unity_dc m hm s hsr hc0 hc1 hr1
  refine ⟨hu, ?_⟩
  intro c
  have comb : ∀ t : LowPassFilter ℝ, t.a0 + t.a1 + t.a2 = 1 + t.b1 + t.b2 →
      t.x1 = c → t.x2 = c → t.y1 = c → t.y2 = c →
      t.a0 * c + t.a1 * t.x1 + t.a2 * t.x2 - t.b1 * t.y1 - t.b2 * t.y2 = c := by
    intro t ht e1 e2 e3 e4
    rw [e1, e2, e3, e4]
    linear_combination c * ht
  unfold process
  split_ifs with hl
  · refine comb _ ?_ rfl rfl rfl rfl
    exact unity_dc m hm _ hsr (le_max_left _ _) (max_le (by norm_num) (min_le_left _ _)) hr1
  · exact comb _ hu rfl rfl rfl rfl

/-- C5 at cutoff 11025 Hz (a quarter of the sample rate) and resonance 0. -/
theorem C5_unity_dc_gain_witness :
    (updateCoefficients (CLib.mk Real.pi Real.sin Real.cos Real.arcsin 1 (fun _ => 0))
          (LowPassFilter.mk 44100 11025 0 0 0 0 11025 0 0 0 0 0 0 0 0 0)).a0
        + (updateCoefficients (CLib.mk Real.pi Real.sin Real.cos Real.arcsin 1 (fun _ => 0))
          (LowPassFilter.mk 44100 11025 0 0 0 0 11025 0 0 0 0 0 0 0 0 0)).a1
        + (updateCoefficients (CLib.mk Real.pi Real.sin Real.cos Real.arcsin 1 (fun _ => 0))
          (LowPassFilter.mk 44100 11025 0 0 0 0 11025 0 0 0 0 0 0 0 0 0)).a2
      = 1 + (updateCoefficients (CLib.mk Real.pi Real.sin Real.cos Real.arcsin 1 (fun _ => 0))
          (LowPassFilter.mk 44100 11025 0 0 0 0 11025 0 0 0 0 0 0 0 0 0)).b1
        + (updateCoefficients (CLib.mk Real.pi Real.sin Real.cos Real.arcsin 1 (fun _ => 0))
          (LowPassFilter.mk 44100 11025 0 0 0 0 11025 0 0 0 0 0 0 0 0 0)).b2 :=
  (C5_unity_dc_gain (CLib.mk Real.pi Real.sin Real.cos Real.arcsin 1 (fun _ => 0))
    ⟨rfl, rfl, rfl, rfl⟩ (LowPassFilter.mk 44100 11025 0 0 0 0 11025 0 0 0 0 0 0 0 0 0)
    rfl (by norm_num) (by norm_num) (by norm_num) (by norm_num)).1

theorem updateLFO_params (m : CLib K) (s : LowPassFilter K) :
    (updateLFO m s).resonance = s.resonance ∧ (updateLFO m s).baseCutoff = s.baseCutoff ∧
      (updateLFO m s).lfoFrequency = s.lfoFrequency ∧ (updateLFO m s).lfoAmount = s.lfoAmount ∧
      (updateLFO m s).sampleRate = s.sampleRate :=
  ⟨rfl, rfl, rfl, rfl, rfl⟩

theorem updateCutoffWithLFO_params (m : CLib K) (s : LowPassFilter K) :
    (updateCutoffWithLFO m s).resonance = s.resonance ∧
      (updateCutoffWithLFO m s).baseCutoff = s.baseCutoff ∧
      (updateCutoffWithLFO m s).lfoFrequency = s.lfoFrequency ∧
      (updateCutoffWithLFO m s).lfoAmount = s.lfoAmount ∧
      (updateCutoffWithLFO m s).sampleRate = s.sampleRate := by
  unfold updateCutoffWithLFO
  split_ifs
  · exact updateLFO_params m s
  · exact ⟨rfl, rfl, rfl, rfl, rfl⟩

theorem lfoActive_congr (s t : LowPassFilter K) (hf : t.lfoFrequency = s.lfoFrequency)
    (ha : t.lfoAmount = s.lfoAmount) : t.lfoActive = s.lfoActive := by
  unfold lfoActive
  rw [hf, ha]

theorem lpf_process_params (m : CLib K) (s : LowPassFilter K) (x : K) :
    (process m s x).1.baseCutoff = s.baseCutoff ∧
      (process m s x).1.lfoFrequency = s.lfoFrequency ∧
      (process m s x).1.lfoAmount = s.lfoAmount ∧
      (process m s x).1.cutoff = (if s.lfoActive then (updateLFO m s).cutoff else s.cutoff) := by
  unfold process
  split_ifs
  · exact ⟨rfl, rfl, rfl, rfl⟩
  · exact ⟨rfl, rfl, rfl, rfl⟩

theorem updateCutoffWithLFO_range (m : CLib K) (s : LowPassFilter K)
    (h0 : 20 ≤ s.baseCutoff) (h1 : s.baseCutoff ≤ 20000) :
    CutoffInRange (updateCutoffWithLFO m s) := by
  unfold updateCutoffWithLFO
  split_ifs
  · exact updateLFO_cutoff m s
  · exact ⟨h0, h1⟩

theorem updateCutoffWithLFO_active (m : CLib K) (s : LowPassFilter K)
    (h : (updateCutoffWithLFO m s).lfoActive = true) :
    CutoffInRange (updateCutoffWithLFO m s) := by
  obtain ⟨-, -, hf, ha, -⟩ := updateCutoffWithLFO_params m s
  rw [lfoActive_congr _ _ hf ha] at h
  unfold updateCutoffWithLFO
  rw [if_pos h]
  exact updateLFO_cutoff m s

theorem step_base_range (m : CLib K) (s : LowPassFilter K) (op : Op K) (hop : op.BaseInRange)
    (hb : 20 ≤ s.baseCutoff ∧ s.baseCutoff ≤ 20000) (hc : CutoffInRange s) :
    (20 ≤ (step m s op).baseCutoff ∧ (step m s op).baseCutoff ≤ 20000) ∧
      CutoffInRange (step m s op) := by
  cases op with
  | setCutoff x =>
    have hb2 : (step m s (Op.setCutoff x)).baseCutoff = x :=
      (updateCutoffWithLFO_params m _).2.1
    exact ⟨by rw [hb2]; exact hop, updateCutoffWithLFO_range m _ hop.1 hop.2⟩
  | setAutoVariationFrequency f =>
    have hb2 : (step m s (Op.setAutoVariationFrequency f)).baseCutoff = s.baseCutoff :=
      (updateCutoffWithLFO_params m _).2.1
    exact ⟨by rw [hb2]; exact hb, updateCutoffWithLFO_range m _ hb.1 hb.2⟩
  | setAutoVariationAmount d =>
    have hb2 : (step m s (Op.setAutoVariationAmount d)).baseCutoff = s.baseCutoff :=
      (updateCutoffWithLFO_params m _).2.1
    exact ⟨by rw [hb2]; exact hb, updateCutoffWithLFO_range m _ hb.1 hb.2⟩
  | process x =>
    obtain ⟨p1, -, -, p4⟩ := lpf_process_params m s x
    refine ⟨?_, ?_⟩
    · show 20 ≤ (process m s x).1.baseCutoff ∧ (process m s x).1.baseCutoff ≤ 20000
      rw [p1]; exact hb
    · show 20 ≤ (process m s x).1.cutoff ∧ (process m s x).1.cutoff ≤ 20000
      rw [p4]
      split_ifs
      · exact updateLFO_cutoff m s
      · exact hc

theorem runOps_base_range (m : CLib K) (ops : List (Op K)) :
    ∀ s : LowPassFilter K, (∀ op ∈ ops, op.BaseInRange) →
      (20 ≤ s.baseCutoff ∧ s.baseCutoff ≤ 20000) → CutoffInRange s →
      CutoffInRange (runOps m s ops) := by
  induction ops with
  | nil => intro s _ _ hc; exact hc
  | cons op ops ih =>
    intro s hv hb hc
    obtain ⟨b, c⟩ := step_base_range m s op (hv op (List.mem_cons_self _ _)) hb hc
    exact ih (step m s op) (fun o ho => hv o (List.mem_cons_of_mem _ ho)) b c

theorem step_active_range (m : CLib K) (s : LowPassFilter K) (op : Op K)
    (h : (step m s op).lfoActive = true) : CutoffInRange (step m s op) := by
  cases op with
  | setCutoff x => exact updateCutoffWithLFO_active m _ h
  | setAutoVariationFrequency f => exact updateCutoffWithLFO_active m _ h
  | setAutoVariationAmount d => exact updateCutoffWithLFO_active m _ h
  | process x =>
    obtain ⟨-, p2, p3, p4⟩ := lpf_process_params m s x
    have h2 : s.lfoActive = true := by
      rw [← lfoActive_congr s (process m s x).1 p2 p3]; exact h
    show 20 ≤ (process m s x).1.cutoff ∧ (process m s x).1.cutoff ≤ 20000
    rw [p4, if_pos h2]
    exact updateLFO_cutoff m s

/-- C7, counterexample. On a freshly constructed filter (LFO off),
`setCutoff(5)` leaves the effective cutoff at 5 Hz, outside [20, 20000]. -/
theorem C7_cutoff_not_clamped :
    (setCutoff CLib.toy (new CLib.toy 44100) 5).cutoff = 5 ∧
      ¬ CutoffInRange (setCutoff CLib.toy (new CLib.toy 44100) 5) := by
  have h : (setCutoff CLib.toy (new CLib.toy 44100) 5).cutoff = 5 := by
    norm_num [setCutoff, updateCutoffWithLFO, lfoActive, updateCoefficients, new]
  refine ⟨h, ?_⟩
  unfold CutoffInRange
  rw [h]
  norm_num

/-- C7, amended. After construction the effective cutoff is in [20, 20000];
it stays there under every sequence of `setCutoff`,
`setAutoVariationFrequency`, `setAutoVariationAmount` and `process` calls in
which `setCutoff` is given values of [20, 20000]; and whatever the base
cutoff, after each of these operations that leaves the LFO active (rate at
least 1 Hz, depth above 0) the effective cutoff is in [20, 20000]. -/
theorem C7_cutoff_range (m : CLib K) (sr : K) (ops : List (Op K))
    (hops : ∀ op ∈ ops, op.BaseInRange) :
    CutoffInRange (new m sr) ∧ CutoffInRange (runOps m (new m sr) ops) ∧
      ∀ (s : LowPassFilter K) (op : Op K),
        (step m s op).lfoActive = true → CutoffInRange (step m s op) := by
  have hnew : CutoffInRange (new m sr) := by
    show (20 : K) ≤ 20000 ∧ (20000 : K) ≤ 20000
    norm_num
  refine ⟨hnew, ?_, fun s op h => step_active_range m s op h⟩
  refine runOps_base_range m ops (new m sr) hops ?_ hnew
  show (20 : K) ≤ 20000 ∧ (20000 : K) ≤ 20000
  norm_num

/-- C7 amended, on `setCutoff(440); setAutoVariationAmount(1/2); process(1)`
over ℚ. -/
theorem C7_cutoff_range_witness :
    CutoffInRange (runOps CLib.toy (new CLib.toy 44100)
      [Op.setCutoff 440, Op.setAutoVariationAmount (1 / 2), Op.process 1]) :=
  (C7_cutoff_range CLib.toy 44100
    [Op.setCutoff 440, Op.setAutoVariationAmount (1 / 2), Op.process 1]
    (by norm_num [Op.BaseInRange])).2.1

/-- C8. Cutoff round trip: when the LFO depth is 0, after `setCutoff(x)` the
base cutoff and the effective cutoff both equal `x`, and the coefficients are
those computed from cutoff `x`, whatever the previous cutoff, LFO rate and LFO
phase were. -/
theorem C8_cutoff_round_trip (m : CLib K) (s : LowPassFilter K) (x : K)
    (hd : s.lfoAmount = 0) :
    (setCutoff m s x).baseCutoff = x ∧ (setCutoff m s x).cutoff = x ∧
      (setCutoff m s x).lfoPhase = s.lfoPhase ∧
      setCutoff m s x = updateCoefficients m { s with baseCutoff := x, cutoff := x } := by
  have h : setCutoff m s x = updateCoefficients m { s with baseCutoff := x, cutoff := x } := by
    unfold setCutoff updateCutoffWithLFO
    rw [if_neg]
    simp [lfoActive, hd]
  rw [h]
  exact ⟨rfl, rfl, rfl, rfl⟩

/-- C8 with `x = 5` on a filter whose LFO rate is 10 Hz and depth 0, over ℚ. -/
theorem C8_cutoff_round_trip_witness :
    (setCutoff CLib.toy (setAutoVariationFrequency CLib.toy (new CLib.toy 44100) 10) 5).baseCutoff = 5
      ∧ (setCutoff CLib.toy (setAutoVariationFrequency CLib.toy (new CLib.toy 44100) 10) 5).cutoff
        = 5 :=
  ⟨(C8_cutoff_round_trip CLib.toy (setAutoVariationFrequency CLib.toy (new CLib.toy 44100) 10) 5
      ((updateCutoffWithLFO_params CLib.toy _).2.2.2.1)).1,
    (C8_cutoff_round_trip CLib.toy (setAutoVariationFrequency CLib.toy (new CLib.toy 44100) 10) 5
      ((updateCutoffWithLFO_params CLib.toy _).2.2.2.1)).2.1⟩

end LowPassFilter

/-! ## Oscillator -/

namespace Oscillator

variable {K : Type} [LinearOrderedField K]

theorem advancePhase_frame (m : CLib K) (o : Oscillator K) :
    (advancePhase m o).phaseStep = o.phaseStep ∧ (advancePhase m o).waveform = o.waveform ∧
      (advancePhase m o).isEnabled = o.isEnabled ∧
      (advancePhase m o).frequency = o.frequency ∧
      (advancePhase m o).frequencyOffset = o.frequencyOffset :=
  ⟨rfl, rfl, rfl, rfl, rfl⟩

theorem advancePhase_range (m : CLib K) (o : Oscillator K) (hs0 : 0 ≤ o.phaseStep)
    (hs1 : o.phaseStep ≤ SynthConstants.TWO_PI m) (hp : PhaseInRange m o) :
    PhaseInRange m (advancePhase m o) := by
  obtain ⟨hp0, hp1⟩ := hp
  unfold PhaseInRange advancePhase
  simp only
  split_ifs with h
  · exact ⟨by linarith, by linarith⟩
  · exact ⟨by linarith, not_le.mp h⟩

theorem generateSample_state (m : CLib K) (o : Oscillator K) (rc : ℕ) :
    (generateSample m o rc).2.1 = o ∨ (generateSample m o rc).2.1 = advancePhase m o := by
  unfold generateSample
  split_ifs
  · exact Or.inl rfl
  · cases o.waveform
    · exact Or.inr rfl
    · exact Or.inl rfl
    · exact Or.inr rfl

theorem processBuffer_eq_map (m : CLib K) (n : ℕ) :
    ∀ (o : Oscillator K) (rc : ℕ),
      (processBuffer m o rc n).1 = (List.range n).map (nthSample m o rc) := by
  induction n with
  | zero => intro o rc; rfl
  | succ n ih =>
    intro o rc
    show (generateSample m o rc).1 :: (processBuffer m _ _ n).1 = _
    rw [ih, List.range_succ_eq_map, List.map_cons, List.map_map]
    rfl

theorem nthState_succ (m : CLib K) (k : ℕ) :
    ∀ (o : Oscillator K) (rc : ℕ), o.isEnabled = true → o.waveform = Waveform.Triangle →
      nthState m o rc (k + 1) = advancePhase m (nthState m o rc k) ∧
        (nthState m o rc k).isEnabled = true ∧
        (nthState m o rc k).waveform = Waveform.Triangle ∧
        (nthState m o rc k).phaseStep = o.phaseStep := by
  induction k with
  | zero =>
    intro o rc hen hw
    refine ⟨?_, hen, hw, rfl⟩
    show (generateSample m o rc).2.1 = advancePhase m o
    simp [generateSample, hen, hw]
  | succ k ih =>
    intro o rc hen hw
    have hg : (generateSample m o rc).2.1 = advancePhase m o := by
      simp [generateSample, hen, hw]
    obtain ⟨i1, i2, i3, i4⟩ := ih (generateSample m o rc).2.1 (generateSample m o rc).2.2
      (by rw [hg]; exact hen) (by rw [hg]; exact hw)
    refine ⟨i1, i2, i3, ?_⟩
    show (nthState m (generateSample m o rc).2.1 (generateSample m o rc).2.2 k).phaseStep = _
    rw [i4, hg]
    rfl

theorem nthSample_triangle (m : CLib K) (k : ℕ) :
    ∀ (o : Oscillator K) (rc : ℕ), o.isEnabled = true → o.waveform = Waveform.Triangle →
      nthSample m o rc k
        = SynthConstants.BASE_AMPLITUDE
          * (m.asin (m.sin (nthState m o rc k).phase) * (2 / m.M_PI)) := by
  induction k with
  | zero =>
    intro o rc hen hw
    show (generateSample m o rc).1 = _
    simp [generateSample, hen, hw, nthState]
  | succ k ih =>
    intro o rc hen hw
    have hg : (generateSample m o rc).2.1 = advancePhase m o := by
      simp [generateSample, hen, hw]
    exact ih (generateSample m o rc).2.1 (generateSample m o rc).2.2
      (by rw [hg]; exact hen) (by rw [hg]; exact hw)

theorem nthState_phase (m : CLib ℝ) (o : Oscillator ℝ) (rc : ℕ) (hen : o.isEnabled = true)
    (hw : o.waveform = Waveform.Triangle) (k : ℕ) :
    ∃ j : ℤ, (nthState m o rc k).phase
      = o.phase + k * o.phaseStep - j * (2 * m.M_PI) := by
  induction k with
  | zero => exact ⟨0, by simp [nthState]⟩
  | succ k ih =>
    obtain ⟨j, hj⟩ := ih
    obtain ⟨h1, -, -, h4⟩ := nthState_succ m k o rc hen hw
    rw [h1]
    unfold advancePhase SynthConstants.TWO_PI
    simp only
    rw [h4, hj]
    split_ifs
    · exact ⟨j + 1, by push_cast; ring⟩
    · exact ⟨j, by push_cast; ring⟩

/-- C10. Triangle periodicity: with the real sine and arcsine, for every
frequency `f > 0` with `44100 / f = N` an integer, offset 0, the samples
`s_0, s_1, ...` of an enabled Triangle oscillator satisfy `s_(k+N) = s_k` for
every `k`, from every starting phase in [0, 2π); `processBuffer(n)` writes
`s_0 .. s_(n-1)`. -/
theorem C10_triangle_periodic (m : CLib ℝ) (hm : m.IsReal) (o : Oscillator ℝ) (N : ℕ) (f : ℝ)
    (hf : 0 < f) (hfN : 44100 / f = N) (hw : o.waveform = Waveform.Triangle)
    (hen : o.isEnabled = true) (hoff : o.frequencyOffset = 0) (hp : PhaseInRange m o)
    (rc k : ℕ) :
    nthSample m (setFrequency m o f) rc (k + N) = nthSample m (setFrequency m o f) rc k ∧
      ∀ n : ℕ, (processBuffer m (setFrequency m o f) rc n).1
        = (List.range n).map (nthSample m (setFrequency m o f) rc) := by
  have _ := hp
  refine ⟨?_, fun n => processBuffer_eq_map m n _ rc⟩
  obtain ⟨hpi, hsin, -, -⟩ := hm
  have hen2 : (setFrequency m o f).isEnabled = true := hen
  have hw2 : (setFrequency m o f).waveform = Waveform.Triangle := hw
  rw [nthSample_triangle m _ _ rc hen2 hw2, nthSample_triangle m _ _ rc hen2 hw2]
  obtain ⟨j1, e1⟩ := nthState_phase m (setFrequency m o f) rc hen2 hw2 (k + N)
  obtain ⟨j2, e2⟩ := nthState_phase m (setFrequency m o f) rc hen2 hw2 k
  have hstep : (N : ℝ) * (setFrequency m o f).phaseStep = 2 * Real.pi := by
    show (N : ℝ) * (SynthConstants.TWO_PI m * (f + o.frequencyOffset) / 44100) = 2 * Real.pi
    unfold SynthConstants.TWO_PI
    rw [hoff, hpi, ← hfN]
    field_simp
    ring
  have hsin_eq : m.sin (nthState m (setFrequency m o f) rc (k + N)).phase
      = m.sin (nthState m (setFrequency m o f) rc k).phase := by
    rw [e1, e2, hsin, hpi, Real.sin_sub_int_mul_two_pi, Real.sin_sub_int_mul_two_pi]
    push_cast
    rw [show (setFrequency m o f).phase + (↑k + ↑N) * (setFrequency m o f).phaseStep
        = (setFrequency m o f).phase + ↑k * (setFrequency m o f).phaseStep
          + (N : ℝ) * (setFrequency m o f).phaseStep by ring, hstep, Real.sin_add_two_pi]
  rw [hsin_eq]

/-- C10 at 441 Hz (period 100 samples) on a fresh oscillator: sample 100
equals sample 0. -/
theorem C10_triangle_periodic_witness :
    nthSample (CLib.mk Real.pi Real.sin Real.cos Real.arcsin 1 (fun _ => 0))
        (setFrequency (CLib.mk Real.pi Real.sin Real.cos Real.arcsin 1 (fun _ => 0))
          (new (CLib.mk Real.pi Real.sin Real.cos Real.arcsin 1 (fun _ => 0))) 441) 0 (0 + 100)
      = nthSample (CLib.mk Real.pi Real.sin Real.cos Real.arcsin 1 (fun _ => 0))
        (setFrequency (CLib.mk Real.pi Real.sin Real.cos Real.arcsin 1 (fun _ => 0))
          (new (CLib.mk Real.pi Real.sin Real.cos Real.arcsin 1 (fun _ => 0))) 441) 0 0 :=
  (C10_triangle_periodic (CLib.mk Real.pi Real.sin Real.cos Real.arcsin 1 (fun _ => 0))
    ⟨rfl, rfl, rfl, rfl⟩ (new (CLib.mk Real.pi Real.sin Real.cos Real.arcsin 1 (fun _ => 0)))
    100 441 (by norm_num) (by norm_num) rfl rfl rfl
    ⟨le_refl (0 : ℝ), by
      show (0 : ℝ) < 2 * Real.pi
      linarith [Real.pi_pos]⟩ 0 0).1

theorem triangle_unit_bound (x : ℝ) :
    -(1 / 2 : ℝ) ≤ (1 / 2 : ℝ) * (Real.arcsin x * (2 / Real.pi)) ∧
      (1 / 2 : ℝ) * (Real.arcsin x * (2 / Real.pi)) ≤ 1 / 2 := by
  have hp := Real.pi_pos
  have h1 := Real.arcsin_le_pi_div_two x
  have h2 := Real.neg_pi_div_two_le_arcsin x
  have e : (1 / 2 : ℝ) * (Real.arcsin x * (2 / Real.pi)) = Real.arcsin x / Real.pi := by
    field_simp
  rw [e]
  constructor
  · rw [le_div_iff₀ hp]; linarith
  · rw [div_le_iff₀ hp]; linarith

/-- C11. Triangle bound: with the real sine and arcsine, every sample an
enabled Triangle oscillator returns, `A*asin(sin(phase))*(2/π)` with
`A = BASE_AMPLITUDE = 0.5`, lies in [-A, A], whatever the frequency and the
phase; this holds for the first sample and for every later one. -/
theorem C11_triangle_bound (m : CLib ℝ) (hm : m.IsReal) (o : Oscillator ℝ)
    (hw : o.waveform = Waveform.Triangle) (hen : o.isEnabled = true) (rc k : ℕ) :
    (generateSample m o rc).1
        = SynthConstants.BASE_AMPLITUDE * (m.asin (m.sin o.phase) * (2 / m.M_PI)) ∧
      (SynthConstants.BASE_AMPLITUDE : ℝ) = 1 / 2 ∧
      -SynthConstants.BASE_AMPLITUDE ≤ (generateSample m o rc).1 ∧
      (generateSample m o rc).1 ≤ SynthConstants.BASE_AMPLITUDE ∧
      -SynthConstants.BASE_AMPLITUDE ≤ nthSample m o rc k ∧
      nthSample m o rc k ≤ SynthConstants.BASE_AMPLITUDE := by
  obtain ⟨hpi, hsin, -, hasin⟩ := hm
  have h0 := nthSample_triangle m 0 o rc hen hw
  have hk := nthSample_triangle m k o rc hen hw
  have g0 : (generateSample m o rc).1
      = SynthConstants.BASE_AMPLITUDE * (m.asin (m.sin o.phase) * (2 / m.M_PI)) := h0
  refine ⟨g0, rfl, ?_, ?_, ?_, ?_⟩
  · rw [g0, hpi, hasin]; exact (triangle_unit_bound _).1
  · rw [g0, hpi, hasin]; exact (triangle_unit_bound _).2
  · rw [hk, hpi, hasin]; exact (triangle_unit_bound _).1
  · rw [hk, hpi, hasin]; exact (triangle_unit_bound _).2

/-- C11 on a fresh oscillator at 440 Hz, sample 7. -/
theorem C11_triangle_bound_witness :
    -SynthConstants.BASE_AMPLITUDE
        ≤ nthSample (CLib.mk Real.pi Real.sin Real.cos Real.arcsin 1 (fun _ => 0))
          (new (CLib.mk Real.pi Real.sin Real.cos Real.arcsin 1 (fun _ => 0))) 0 7 ∧
      nthSample (CLib.mk Real.pi Real.sin Real.cos Real.arcsin 1 (fun _ => 0))
          (new (CLib.mk Real.pi Real.sin Real.cos Real.arcsin 1 (fun _ => 0))) 0 7
        ≤ SynthConstants.BASE_AMPLITUDE :=
  (C11_triangle_bound (CLib.mk Real.pi Real.sin Real.cos Real.arcsin 1 (fun _ => 0))
    ⟨rfl, rfl, rfl, rfl⟩ (new (CLib.mk Real.pi Real.sin Real.cos Real.arcsin 1 (fun _ => 0)))
    rfl rfl 0 7).2.2.2.2

theorem generateSample_disabled (m : CLib K) (o : Oscillator K) (hdis : o.isEnabled = false)
    (rc : ℕ) : generateSample m o rc = (0, o, rc) := by
  simp [generateSample, hdis]

theorem processBuffer_disabled (m : CLib K) (o : Oscillator K) (hdis : o.isEnabled = false)
    (rc n : ℕ) : processBuffer m o rc n = (List.replicate n 0, o, rc) := by
  induction n with
  | zero => rfl
  | succ n ih =>
    show ((generateSample m o rc).1
        :: (processBuffer m (generateSample m o rc).2.1 (generateSample m o rc).2.2 n).1,
      (processBuffer m (generateSample m o rc).2.1 (generateSample m o rc).2.2 n).2.1,
      (processBuffer m (generateSample m o rc).2.1 (generateSample m o rc).2.2 n).2.2) = _
    rw [generateSample_disabled m o hdis rc]
    simp only
    rw [ih]
    rfl

theorem processBuffer_length (m : CLib K) (n : ℕ) :
    ∀ (o : Oscillator K) (rc : ℕ), (processBuffer m o rc n).1.length = n := by
  intro o rc
  rw [processBuffer_eq_map]
  simp

/-- C12. Disabled oscillator: with `isEnabled == false`, whatever the
waveform, `generateSample()` returns 0 and changes neither the phase nor any
other field (nor does it call `rand()`); `processBuffer(n)` yields `n` zeros
and leaves the oscillator as it was. -/
theorem C12_disabled_oscillator (m : CLib K) (o : Oscillator K) (hdis : o.isEnabled = false)
    (rc n : ℕ) :
    generateSample m o rc = (0, o, rc) ∧
      processBuffer m o rc n = (List.replicate n 0, o, rc) ∧
      (processBuffer m o rc n).2.1.phase = o.phase :=
  ⟨generateSample_disabled m o hdis rc, processBuffer_disabled m o hdis rc n, by
    rw [processBuffer_disabled m o hdis rc n]⟩

/-- C12 on a disabled Saw oscillator at phase 1, four samples, over ℚ. -/
theorem C12_disabled_oscillator_witness :
    generateSample CLib.toy (Oscillator.mk 440 1 (1 / 10) Waveform.Saw false 0) 3
        = (0, Oscillator.mk 440 1 (1 / 10) Waveform.Saw false 0, 3) ∧
      processBuffer CLib.toy (Oscillator.mk 440 1 (1 / 10) Waveform.Saw false 0) 3 4
        = (List.replicate 4 0, Oscillator.mk 440 1 (1 / 10) Waveform.Saw false 0, 3) ∧
      (processBuffer CLib.toy (Oscillator.mk 440 1 (1 / 10) Waveform.Saw false 0) 3 4).2.1.phase
        = (Oscillator.mk 440 1 (1 / 10) Waveform.Saw false 0 : Oscillator ℚ).phase :=
  C12_disabled_oscillator CLib.toy (Oscillator.mk 440 1 (1 / 10) Waveform.Saw false 0) rfl 3 4

end Oscillator

/-! ## Voice mixer -/

namespace TripleOscillator

variable {K : Type} [LinearOrderedField K]

theorem processN_shift (e : Envelope K) (k : ℕ) :
    (e.process).1.processN k = e.processN (k + 1) := by
  induction k with
  | zero => rfl
  | succ k ih =>
    show (((e.process).1.processN k).process).1 = ((e.processN (k + 1)).process).1
    rw [ih]

theorem processOut_shift (e : Envelope K) (k : ℕ) :
    (e.process).1.processOut (k + 1) = e.processOut (k + 2) := by
  show (((e.process).1.processN k).process).2 = ((e.processN (k + 1)).process).2
  rw [processN_shift]

theorem mixBuffers_single (l : List K) :
    ∀ env : Envelope K,
      mixBuffers env l (List.replicate l.length 0) (List.replicate l.length 0)
        = (List.zipWith (fun o e => o * e) l
            ((List.range l.length).map (fun i => env.processOut (i + 1))),
          env.processN l.length) := by
  induction l with
  | nil => intro env; rfl
  | cons a l ih =>
    intro env
    show ((a + 0 + 0) * (env.process).2
        :: (mixBuffers (env.process).1 l (List.replicate l.length 0)
            (List.replicate l.length 0)).1,
      (mixBuffers (env.process).1 l (List.replicate l.length 0)
        (List.replicate l.length 0)).2) = _
    rw [ih (env.process).1, processN_shift]
    simp only [List.length_cons, List.range_succ_eq_map, List.map_cons, List.map_map,
      List.zipWith_cons_cons, add_zero]
    refine Prod.ext (List.cons_eq_cons.mpr ⟨rfl, ?_⟩) rfl
    congr 1
    apply List.map_congr_left
    intro i _
    exact processOut_shift env i

/-- C13. Single-oscillator mixer equivalence: when osc1 is an enabled Triangle
oscillator and osc2 and osc3 are disabled, `TripleOscillator::processBuffer(n)`
writes `buffer[i] = o_i * e_i` for every `i < n`, where `o_0 .. o_(n-1)` is the
output of a standalone `Oscillator::processBuffer(n)` from the state of osc1
and `e_i` is the value of the `(i+1)`-th `Envelope::process()` call from the
mixer's envelope; the envelope is advanced exactly `n` times and osc1 as by
the standalone run. -/
theorem C13_single_oscillator_mix (m : CLib K) (t : TripleOscillator K) (rc n : ℕ)
    (h1 : t.osc1.isEnabled = true) (hw : t.osc1.waveform = Waveform.Triangle)
    (h2 : t.osc2.isEnabled = false) (h3 : t.osc3.isEnabled = false) :
    (processBuffer m t rc n).1
        = List.zipWith (fun o e => o * e) (Oscillator.processBuffer m t.osc1 rc n).1
            ((List.range n).map (fun i => t.env.processOut (i + 1))) ∧
      (processBuffer m t rc n).1.length = n ∧
      (∀ i : ℕ, i < n → (processBuffer m t rc n).1[i]?
        = some (Oscillator.nthSample m t.osc1 rc i * t.env.processOut (i + 1))) ∧
      (processBuffer m t rc n).2.1.env = t.env.processN n ∧
      (processBuffer m t rc n).2.1.osc1 = (Oscillator.processBuffer m t.osc1 rc n).2.1 := by
  have _ := h1
  have _ := hw
  have hlen := Oscillator.processBuffer_length m n t.osc1 rc
  have hmix : mixBuffers t.env (Oscillator.processBuffer m t.osc1 rc n).1
      (Oscillator.processBuffer m t.osc2 (Oscillator.processBuffer m t.osc1 rc n).2.2 n).1
      (Oscillator.processBuffer m t.osc3
        (Oscillator.processBuffer m t.osc2 (Oscillator.processBuffer m t.osc1 rc n).2.2 n).2.2
        n).1
      = (List.zipWith (fun o e => o * e) (Oscillator.processBuffer m t.osc1 rc n).1
          ((List.range n).map (fun i => t.env.processOut (i + 1))), t.env.processN n) := by
    rw [Oscillator.processBuffer_disabled m t.osc2 h2, Oscillator.processBuffer_disabled m t.osc3 h3]
    have := mixBuffers_single (Oscillator.processBuffer m t.osc1 rc n).1 t.env
    rw [hlen] at this
    exact this
  have e1 : (processBuffer m t rc n).1
      = List.zipWith (fun o e => o * e) (Oscillator.processBuffer m t.osc1 rc n).1
          ((List.range n).map (fun i => t.env.processOut (i + 1))) := by
    show (mixBuffers _ _ _ _).1 = _
    rw [hmix]
  have e2 : (processBuffer m t rc n).2.1.env = t.env.processN n := by
    show (mixBuffers _ _ _ _).2 = _
    rw [hmix]
  refine ⟨e1, ?_, ?_, e2, rfl⟩
  · rw [e1]; simp [hlen]
  · intro i hi
    rw [e1, Oscillator.processBuffer_eq_map]
    simp [List.getElem?_zipWith, List.getElem?_map, List.getElem?_range hi]

/-- C13 on the freshly constructed mixer after `noteOn()`, three samples,
over ℚ. -/
theorem C13_single_oscillator_mix_witness :
    (processBuffer CLib.toy (TripleOscillator.new CLib.toy).noteOn 0 3).1
      = List.zipWith (fun o e => o * e)
          (Oscillator.processBuffer CLib.toy (TripleOscillator.new CLib.toy).noteOn.osc1 0 3).1
          ((List.range 3).map
            (fun i => (TripleOscillator.new CLib.toy).noteOn.env.processOut (i + 1))) :=
  (C13_single_oscillator_mix CLib.toy (TripleOscillator.new CLib.toy).noteOn 0 3 rfl rfl rfl
    rfl).1

end TripleOscillator

/-! ## Key handling -/

namespace MainWindow

theorem handleKeyPress_frequency (w : MainWindow) (key : ℤ) (p : ParamStore ℝ)
    (g : AudioGenerator ℝ) (hk1 : 1 ≤ key) (hk13 : key ≤ 13) (hg : w.audioGenerator = true)
    (hp : w.params = true) :
    (handleKeyPress Real.rpow w key p g).1.frequency
      = 220 * (2 : ℝ) ^ ((w.octave : ℝ) + ((key : ℝ) - 1) / 12) := by
  unfold handleKeyPress
  rw [if_pos ⟨hk1, hk13, hg, hp⟩]
  simp only [AudioGenerator.calculateNoteFrequency]
  push_cast
  rfl

/-- C14. Key-to-frequency mapping: for every key in 1..13 and every octave in
[-2, 1] (with the generator and the parameter store attached),
`handleKeyPress(key)` stores `220 * 2^(octave + (key-1)/12)` in
`SynthParams.frequency`, the value of `calculateNoteFrequency(key-1, octave)`;
key 1 at octave 0 gives 220 Hz and key 13 gives twice the frequency of key 1
in the same octave. -/
theorem C14_key_frequency (w : MainWindow) (key : ℤ) (p : ParamStore ℝ)
    (g : AudioGenerator ℝ) (hk1 : 1 ≤ key) (hk13 : key ≤ 13) (ho1 : -2 ≤ w.octave)
    (ho2 : w.octave ≤ 1) (hg : w.audioGenerator = true) (hp : w.params = true) :
    (handleKeyPress Real.rpow w key p g).1.frequency
        = 220 * (2 : ℝ) ^ ((w.octave : ℝ) + ((key : ℝ) - 1) / 12) ∧
      (handleKeyPress Real.rpow w key p g).1.frequency
        = AudioGenerator.calculateNoteFrequency Real.rpow (key - 1) w.octave ∧
      (w.octave = 0 → (handleKeyPress Real.rpow w 1 p g).1.frequency = 220) ∧
      (handleKeyPress Real.rpow w 13 p g).1.frequency
        = 2 * (handleKeyPress Real.rpow w 1 p g).1.frequency := by
  have _ := ho1
  have _ := ho2
  have h := handleKeyPress_frequency w key p g hk1 hk13 hg hp
  have h1 := handleKeyPress_frequency w 1 p g le_rfl (by norm_num) hg hp
  have h13 := handleKeyPress_frequency w 13 p g (by norm_num) le_rfl hg hp
  refine ⟨h, ?_, ?_, ?_⟩
  · unfold handleKeyPress
    rw [if_pos ⟨hk1, hk13, hg, hp⟩]
  · intro ho
    rw [h1, ho]
    norm_num
  · rw [h1, h13]
    have e13 : (w.octave : ℝ) + (((13 : ℤ) : ℝ) - 1) / 12 = (w.octave : ℝ) + 1 := by norm_num
    have e1 : (w.octave : ℝ) + (((1 : ℤ) : ℝ) - 1) / 12 = (w.octave : ℝ) := by norm_num
    rw [e13, e1, Real.rpow_add (by norm_num : (0 : ℝ) < 2), Real.rpow_one]
    ring

/-- C14 for key 10 at octave -1: the stored frequency is
`220 * 2^(-1 + 9/12)`. -/
theorem C14_key_frequency_witness :
    (handleKeyPress Real.rpow (MainWindow.mk true true true false false (-1)) 10
        (ParamStore.default : ParamStore ℝ)
        (AudioGenerator.new (CLib.mk Real.pi Real.sin Real.cos Real.arcsin 1 (fun _ => 0)))
      ).1.frequency
      = 220 * (2 : ℝ) ^ ((((-1 : ℤ)) : ℝ) + (((10 : ℤ) : ℝ) - 1) / 12) :=
  (C14_key_frequency (MainWindow.mk true true true false false (-1)) 10 ParamStore.default
    (AudioGenerator.new (CLib.mk Real.pi Real.sin Real.cos Real.arcsin 1 (fun _ => 0)))
    (by norm_num) (by norm_num) (by norm_num) (by norm_num) rfl rfl).1

end MainWindow

/-! ## Render callback -/

namespace AudioGenerator

variable {K : Type} [LinearOrderedField K]

theorem mixBuffers_length (n : ℕ) :
    ∀ (env : Envelope K) (l1 l2 l3 : List K), l1.length = n → l2.length = n → l3.length = n →
      (TripleOscillator.mixBuffers env l1 l2 l3).1.length = n := by
  induction n with
  | zero =>
    intro env l1 l2 l3 h1 _ _
    rw [List.length_eq_zero] at h1
    subst h1
    rfl
  | succ n ih =>
    intro env l1 l2 l3 h1 h2 h3
    match l1, l2, l3, h1, h2, h3 with
    | a :: t1, b :: t2, c :: t3, h1, h2, h3 =>
      show ((TripleOscillator.mixBuffers (env.process).1 t1 t2 t3).1.length) + 1 = n + 1
      rw [ih (env.process).1 t1 t2 t3 (by simpa using h1) (by simpa using h2)
        (by simpa using h3)]

theorem mixer_length (m : CLib K) (t : TripleOscillator K) (rc n : ℕ) :
    (TripleOscillator.processBuffer m t rc n).1.length = n :=
  mixBuffers_length n _ _ _ _ (Oscillator.processBuffer_length m n _ _)
    (Oscillator.processBuffer_length m n _ _) (Oscillator.processBuffer_length m n _ _)

theorem sampleLoop_some (m : CLib K) (volume : K) (buffer : List K) (k : ℕ) :
    ∀ (i : ℕ) (f : LowPassFilter K), i + k ≤ buffer.length →
      sampleLoop m volume buffer i f k
        = some (stereo volume (LowPassFilter.processAll m f ((buffer.drop i).take k)).2,
            (LowPassFilter.processAll m f ((buffer.drop i).take k)).1) := by
  induction k with
  | zero => intro i f _; simp [sampleLoop, LowPassFilter.processAll, stereo]
  | succ k ih =>
    intro i f h
    have hi : i < buffer.length := by omega
    rw [List.drop_eq_getElem_cons hi, List.take_succ_cons]
    unfold sampleLoop
    rw [List.getElem?_eq_getElem hi]
    simp only
    rw [ih (i + 1) _ (by omega)]
    rfl

theorem sampleLoop_none (m : CLib K) (volume : K) (buffer : List K) (k : ℕ) :
    ∀ (i : ℕ) (f : LowPassFilter K), i ≤ buffer.length → buffer.length < i + k →
      sampleLoop m volume buffer i f k = none := by
  induction k with
  | zero => intro i f h1 h2; omega
  | succ k ih =>
    intro i f h1 h2
    unfold sampleLoop
    rcases Nat.lt_or_ge i buffer.length with hi | hi
    · rw [List.getElem?_eq_getElem hi]
      simp only
      rw [ih (i + 1) _ (by omega) (by omega)]
    · rw [List.getElem?_eq_none hi]

theorem processAll_length (m : CLib K) (l : List K) :
    ∀ f : LowPassFilter K, (LowPassFilter.processAll m f l).2.length = l.length := by
  induction l with
  | nil => intro f; rfl
  | cons x xs ih =>
    intro f
    show ((LowPassFilter.processAll m (LowPassFilter.process m f x).1 xs).2.length) + 1 = _
    rw [ih]
    rfl

theorem stereo_length (volume : K) (l : List K) : (stereo volume l).length = 2 * l.length := by
  induction l with
  | nil => rfl
  | cons y ys ih =>
    show (stereo volume ys).length + 1 + 1 = 2 * (ys.length + 1)
    rw [ih]; ring

theorem stereo_getElem (volume : K) (l : List K) :
    ∀ (i : ℕ) (y : K), l[i]? = some y →
      (stereo volume l)[2 * i]? = some (volume * y) ∧
        (stereo volume l)[2 * i + 1]? = some (volume * y) := by
  induction l with
  | nil => intro i y h; simp at h
  | cons a l ih =>
    intro i y h
    cases i with
    | zero =>
      simp only [List.getElem?_cons_zero, Option.some.injEq] at h
      subst h
      exact ⟨by simp [stereo, mul_comm], by simp [stereo, mul_comm]⟩
    | succ i =>
      simp only [List.getElem?_cons_succ] at h
      obtain ⟨h1, h2⟩ := ih i y h
      have e1 : 2 * (i + 1) = (2 * i + 1) + 1 := by ring
      have e2 : 2 * (i + 1) + 1 = ((2 * i + 1) + 1) + 1 := by ring
      refine ⟨?_, ?_⟩
      · rw [e1]
        simp only [stereo, List.getElem?_cons_succ]
        exact h1
      · rw [e2]
        simp only [stereo, List.getElem?_cons_succ]
        exact h2

/-- C15, counterexample. Asked for 257 frames, the callback reads
`buffer[256]`, outside the 256-sample scratch buffer the voice mixer has
filled: no defined output. -/
theorem C15_reads_past_scratch_buffer :
    audioCallback CLib.toy (AudioGenerator.new CLib.toy) ParamStore.default 0 257 = none ∧
      (TripleOscillator.processBuffer CLib.toy
        (prepareOscillator CLib.toy (AudioGenerator.new CLib.toy) ParamStore.default) 0
        FRAMES_PER_BUFFER).1.length = 256 := by
  have hlen := mixer_length CLib.toy
    (prepareOscillator CLib.toy (AudioGenerator.new CLib.toy) ParamStore.default) 0
    FRAMES_PER_BUFFER
  refine ⟨?_, hlen⟩
  unfold audioCallback
  simp only
  rw [sampleLoop_none CLib.toy _ _ 257 0 _ (Nat.zero_le _) (by rw [hlen]; decide)]

/-- C15, amended. For every number of requested frames `n` up to
`FRAMES_PER_BUFFER = 256`, one invocation of `audioCallback` returns
`paContinue` and fills exactly the `n` stereo frames `out[0 .. 2n-1]`, with
`out[2i] = out[2i+1] = volume * y_i` for every `i < n`, where `y_i` is the
output of `filter.process(mono[i])` in sequence and `mono` is the block of 256
samples the voice mixer produced in this invocation. -/
theorem C15_render_callback (m : CLib K) (g : AudioGenerator K) (p : ParamStore K)
    (rc n : ℕ) (hn : n ≤ FRAMES_PER_BUFFER) :
    ∃ (out : List K) (g2 : AudioGenerator K) (rc2 : ℕ),
      audioCallback m g p rc n = some (out, g2, rc2, PaStreamCallbackResult.paContinue) ∧
      out.length = 2 * n ∧
      (TripleOscillator.processBuffer m (prepareOscillator m g p) rc
        FRAMES_PER_BUFFER).1.length = FRAMES_PER_BUFFER ∧
      ∀ i : ℕ, i < n → ∃ x y : K,
        (TripleOscillator.processBuffer m (prepareOscillator m g p) rc
          FRAMES_PER_BUFFER).1[i]? = some x ∧
        (LowPassFilter.processAll m (applyFilterParams m g.filter p.toSynthParams)
          ((TripleOscillator.processBuffer m (prepareOscillator m g p) rc
            FRAMES_PER_BUFFER).1.take n)).2[i]? = some y ∧
        out[2 * i]? = some (p.volume * y) ∧ out[2 * i + 1]? = some (p.volume * y) := by
  have hlen := mixer_length m (prepareOscillator m g p) rc FRAMES_PER_BUFFER
  have hloop := sampleLoop_some m p.volume
    (TripleOscillator.processBuffer m (prepareOscillator m g p) rc FRAMES_PER_BUFFER).1 n 0
    (applyFilterParams m g.filter p.toSynthParams) (by rw [hlen]; omega)
  rw [List.drop_zero] at hloop
  have hys : (LowPassFilter.processAll m (applyFilterParams m g.filter p.toSynthParams)
      ((TripleOscillator.processBuffer m (prepareOscillator m g p) rc
        FRAMES_PER_BUFFER).1.take n)).2.length = n := by
    rw [processAll_length, List.length_take, hlen]
    exact min_eq_left hn
  have hcb : audioCallback m g p rc n
      = some (stereo p.volume
          (LowPassFilter.processAll m (applyFilterParams m g.filter p.toSynthParams)
            ((TripleOscillator.processBuffer m (prepareOscillator m g p) rc
              FRAMES_PER_BUFFER).1.take n)).2,
        { g with
          oscillator := (TripleOscillator.processBuffer m (prepareOscillator m g p) rc
            FRAMES_PER_BUFFER).2.1
          filter := (LowPassFilter.processAll m (applyFilterParams m g.filter p.toSynthParams)
            ((TripleOscillator.processBuffer m (prepareOscillator m g p) rc
              FRAMES_PER_BUFFER).1.take n)).1 },
        (TripleOscillator.processBuffer m (prepareOscillator m g p) rc FRAMES_PER_BUFFER).2.2,
        PaStreamCallbackResult.paContinue) := by
    unfold audioCallback
    simp only
    rw [hloop]
  refine ⟨_, _, _, hcb, ?_, hlen, ?_⟩
  · rw [stereo_length, hys]
  · intro i hi
    have hx : i < (TripleOscillator.processBuffer m (prepareOscillator m g p) rc
        FRAMES_PER_BUFFER).1.length := by rw [hlen]; omega
    have hy : i < (LowPassFilter.processAll m (applyFilterParams m g.filter p.toSynthParams)
        ((TripleOscillator.processBuffer m (prepareOscillator m g p) rc
          FRAMES_PER_BUFFER).1.take n)).2.length := by rw [hys]; exact hi
    refine ⟨_, _, List.getElem?_eq_getElem hx, List.getElem?_eq_getElem hy, ?_⟩
    exact stereo_getElem p.volume _ i _ (List.getElem?_eq_getElem hy)

/-- C15 amended, for the 256 frames the stream is opened with: the callback
of a fresh generator returns `paContinue` with 512 samples, over ℚ. -/
theorem C15_render_callback_witness :
    ∃ (out : List ℚ) (g2 : AudioGenerator ℚ) (rc2 : ℕ),
      audioCallback CLib.toy (AudioGenerator.new CLib.toy) ParamStore.default 0 256
        = some (out, g2, rc2, PaStreamCallbackResult.paContinue) ∧
      out.length = 2 * 256 := by
  obtain ⟨out, g2, rc2, h1, h2, -, -⟩ :=
    C15_render_callback CLib.toy (AudioGenerator.new CLib.toy) ParamStore.default 0 256
      (by decide)
  exact ⟨out, g2, rc2, h1, h2⟩

end AudioGenerator

/-! ## Device start-up -/

namespace AudioGenerator

/-- C16, counterexample. A run of `init()` in which `Pa_StartStream` reports
an error (here `paUnanticipatedHostError`, -9999) gives the caller exactly what
a successful run gives: the same generator state and the same device steps;
`init()` returns nothing. -/
theorem C16_start_failure_not_reported :
    (PaHost.mk 0 0 (some 1) (-9999)).startError ≠ paNoError ∧
      init (PaHost.mk 0 0 (some 1) (-9999)) (AudioGenerator.new CLib.toy)
        = init (PaHost.mk 0 0 (some 1) 0) (AudioGenerator.new CLib.toy) := by
  refine ⟨by decide, ?_⟩
  simp [init, paNoError]

/-- C16, amended. `init()` makes the device steps `Pa_Initialize`,
`Pa_OpenDefaultStream`, `Pa_StartStream` in this order and stops at the first
one that reports an error, so no later step is made; it returns no value, it
never touches the voice mixer or the filter, and the outcome of
`Pa_StartStream` has no effect on the state it leaves. -/
theorem C16_init_stops_at_first_error {K : Type} (host : PaHost) (g : AudioGenerator K) :
    (host.initializeError ≠ paNoError → init host g = (g, [PaCall.paInitialize])) ∧
      (host.initializeError = paNoError → host.openError ≠ paNoError →
        init host g = ({ g with stream := host.openedStream },
          [PaCall.paInitialize, PaCall.paOpenDefaultStream])) ∧
      (host.initializeError = paNoError → host.openError = paNoError →
        init host g = ({ g with stream := host.openedStream },
          [PaCall.paInitialize, PaCall.paOpenDefaultStream, PaCall.paStartStream])) ∧
      (∀ e : ℤ, init { host with startError := e } g = init host g) ∧
      (init host g).1.oscillator = g.oscillator ∧ (init host g).1.filter = g.filter := by
  refine ⟨?_, ?_, ?_, ?_, ?_, ?_⟩
  · intro h
    simp [init, h]
  · intro h1 h2
    simp [init, h1, h2]
  · intro h1 h2
    simp [init, h1, h2]
  · intro e
    unfold init
    simp only
    split_ifs <;> rfl
  · unfold init
    simp only
    split_ifs <;> rfl
  · unfold init
    simp only
    split_ifs <;> rfl

end AudioGenerator

/-! ## Filter: reset, coefficient consistency, recurrence -/

namespace LowPassFilter

variable {K : Type} [LinearOrderedField K]

/-- C17. Reset frame: `reset()` sets `x1 = x2 = y1 = y2 = 0` and the LFO phase
to 0 and leaves the five coefficients, the cutoff, the base cutoff, the
resonance, the LFO rate and depth (and the sample rate) unchanged. -/
theorem C17_reset_frame (s : LowPassFilter K) :
    ((reset s).x1 = 0 ∧ (reset s).x2 = 0 ∧ (reset s).y1 = 0 ∧ (reset s).y2 = 0 ∧
        (reset s).lfoPhase = 0) ∧
      ((reset s).a0 = s.a0 ∧ (reset s).a1 = s.a1 ∧ (reset s).a2 = s.a2 ∧
        (reset s).b1 = s.b1 ∧ (reset s).b2 = s.b2) ∧
      ((reset s).cutoff = s.cutoff ∧ (reset s).baseCutoff = s.baseCutoff ∧
        (reset s).resonance = s.resonance ∧ (reset s).lfoFrequency = s.lfoFrequency ∧
        (reset s).lfoAmount = s.lfoAmount ∧ (reset s).sampleRate = s.sampleRate) :=
  ⟨⟨rfl, rfl, rfl, rfl, rfl⟩, ⟨rfl, rfl, rfl, rfl, rfl⟩, ⟨rfl, rfl, rfl, rfl, rfl, rfl⟩⟩

theorem consistent_updateCoefficients (m : CLib K) (s : LowPassFilter K) :
    CoefficientsConsistent m (updateCoefficients m s) := by
  unfold CoefficientsConsistent updateCoefficients
  refine ⟨?_, ?_, rfl, rfl, rfl⟩
  · show (1 - m.cos _) * (1 / 2) * (1 / (1 + _)) = (1 - m.cos _) / 2 * (1 / (1 + _))
    ring
  · show (1 - m.cos _) * (1 / 2) * (1 / (1 + _)) = (1 - m.cos _) / 2 * (1 / (1 + _))
    ring

theorem consistent_congr (m : CLib K) (s t : LowPassFilter K)
    (hc : t.cutoff = s.cutoff) (hr : t.resonance = s.resonance)
    (hs : t.sampleRate = s.sampleRate) (h0 : t.a0 = s.a0) (h1 : t.a1 = s.a1)
    (h2 : t.a2 = s.a2) (h3 : t.b1 = s.b1) (h4 : t.b2 = s.b2)
    (h : CoefficientsConsistent m s) : CoefficientsConsistent m t := by
  unfold CoefficientsConsistent at h ⊢
  rw [hc, hr, hs, h0, h1, h2, h3, h4]
  exact h

theorem consistent_updateCutoffWithLFO (m : CLib K) (s : LowPassFilter K) :
    CoefficientsConsistent m (updateCutoffWithLFO m s) := by
  unfold updateCutoffWithLFO
  split_ifs
  · exact consistent_updateCoefficients m _
  · exact consistent_updateCoefficients m _

theorem consistent_process (m : CLib K) (s : LowPassFilter K) (x : K)
    (h : CoefficientsConsistent m s) : CoefficientsConsistent m (process m s x).1 := by
  unfold process
  simp only
  split_ifs
  · exact consistent_congr m (updateLFO m s) _ rfl rfl rfl rfl rfl rfl rfl rfl
      (consistent_updateCoefficients m _)
  · exact consistent_congr m s _ rfl rfl rfl rfl rfl rfl rfl rfl h

theorem consistent_call (m : CLib K) (s : LowPassFilter K) (c : Call K)
    (h : CoefficientsConsistent m s) : CoefficientsConsistent m (call m s c) := by
  cases c with
  | setCutoff x => exact consistent_updateCutoffWithLFO m _
  | setResonance r => exact consistent_updateCoefficients m _
  | setAutoVariationFrequency f => exact consistent_updateCutoffWithLFO m _
  | setAutoVariationAmount d => exact consistent_updateCutoffWithLFO m _
  | reset => exact consistent_congr m s _ rfl rfl rfl rfl rfl rfl rfl rfl h
  | process x => exact consistent_process m s x h

theorem consistent_runCalls (m : CLib K) (cs : List (Call K)) :
    ∀ s : LowPassFilter K, CoefficientsConsistent m s →
      CoefficientsConsistent m (runCalls m s cs) := by
  induction cs with
  | nil => intro s h; exact h
  | cons c cs ih => intro s h; exact ih _ (consistent_call m s c h)

/-- C19. Coefficient consistency: after construction and after every sequence
of public operations (`setCutoff`, `setResonance`,
`setAutoVariationFrequency`, `setAutoVariationAmount`, `reset`, `process`) the
five stored coefficients equal the formulas of the specification evaluated at
the current effective cutoff, the current resonance and the sample rate. -/
theorem C19_coefficients_consistent (m : CLib K) (sr : K) (cs : List (Call K)) :
    CoefficientsConsistent m (new m sr) ∧
      CoefficientsConsistent m (runCalls m (new m sr) cs) :=
  ⟨consistent_updateCoefficients m _,
    consistent_runCalls m cs _ (consistent_updateCoefficients m _)⟩

/-- C20. Biquad recurrence: `process(x)` returns
`y = a0*x + a1*x1 + a2*x2 - b1*y1 - b2*y2` with the coefficients in force for
the sample (those `updateLFO` has just computed when the LFO is active, the
stored ones otherwise), and afterwards `x2 = x1`, `x1 = x`, `y2 = y1`,
`y1 = y` (old values on the right); when the LFO is inactive (rate below
1 Hz or depth not above 0) `process` changes nothing but the four history
samples. -/
theorem C20_biquad_recurrence (m : CLib K) (s : LowPassFilter K) (x : K) :
    (process m s x).2
        = (if s.lfoActive then updateLFO m s else s).a0 * x
          + (if s.lfoActive then updateLFO m s else s).a1 * s.x1
          + (if s.lfoActive then updateLFO m s else s).a2 * s.x2
          - (if s.lfoActive then updateLFO m s else s).b1 * s.y1
          - (if s.lfoActive then updateLFO m s else s).b2 * s.y2 ∧
      ((process m s x).1.x2 = s.x1 ∧ (process m s x).1.x1 = x ∧
        (process m s x).1.y2 = s.y1 ∧ (process m s x).1.y1 = (process m s x).2) ∧
      (process m s x).1
        = { (if s.lfoActive then updateLFO m s else s) with
            x2 := s.x1, x1 := x, y2 := s.y1, y1 := (process m s x).2 } ∧
      ((s.lfoFrequency < 1 ∨ s.lfoAmount ≤ 0) →
        (process m s x).2 = s.a0 * x + s.a1 * s.x1 + s.a2 * s.x2 - s.b1 * s.y1 - s.b2 * s.y2 ∧
        (process m s x).1
          = { s with x2 := s.x1, x1 := x, y2 := s.y1,
                     y1 := s.a0 * x + s.a1 * s.x1 + s.a2 * s.x2 - s.b1 * s.y1 - s.b2 * s.y2 }) := by
  have hgen : (process m s x).2
        = (if s.lfoActive then updateLFO m s else s).a0 * x
          + (if s.lfoActive then updateLFO m s else s).a1 * s.x1
          + (if s.lfoActive then updateLFO m s else s).a2 * s.x2
          - (if s.lfoActive then updateLFO m s else s).b1 * s.y1
          - (if s.lfoActive then updateLFO m s else s).b2 * s.y2 := by
    unfold process
    simp only
    split_ifs <;> rfl
  have hst : (process m s x).1
        = { (if s.lfoActive then updateLFO m s else s) with
            x2 := s.x1, x1 := x, y2 := s.y1, y1 := (process m s x).2 } := by
    unfold process
    simp only
    split_ifs <;> rfl
  refine ⟨hgen, ?_, hst, ?_⟩
  · unfold process
    split_ifs <;> exact ⟨rfl, rfl, rfl, rfl⟩
  · intro hoff
    have hina : s.lfoActive = false := by
      unfold lfoActive
      rcases hoff with h | h
      · simp [not_le.mpr h]
      · simp [not_lt.mpr h]
    have hy : (process m s x).2
        = s.a0 * x + s.a1 * s.x1 + s.a2 * s.x2 - s.b1 * s.y1 - s.b2 * s.y2 := by
      rw [hgen, hina]
      rfl
    refine ⟨hy, ?_⟩
    rw [hst, hy, hina]
    rfl

end LowPassFilter

/-! ## Oscillator: phase increment and phase wrapping -/

namespace Oscillator

variable {K : Type} [LinearOrderedField K]

theorem consistent_updatePhaseStep (m : CLib K) (o : Oscillator K) :
    PhaseStepConsistent m (updatePhaseStep m o) := rfl

theorem generateSample_frame (m : CLib K) (o : Oscillator K) (rc : ℕ) :
    (generateSample m o rc).2.1.phaseStep = o.phaseStep ∧
      (generateSample m o rc).2.1.frequency = o.frequency ∧
      (generateSample m o rc).2.1.frequencyOffset = o.frequencyOffset := by
  rcases generateSample_state m o rc with h | h
  · rw [h]; exact ⟨rfl, rfl, rfl⟩
  · rw [h]; exact ⟨rfl, rfl, rfl⟩

theorem processBuffer_frame (m : CLib K) (n : ℕ) :
    ∀ (o : Oscillator K) (rc : ℕ),
      (processBuffer m o rc n).2.1.phaseStep = o.phaseStep ∧
        (processBuffer m o rc n).2.1.frequency = o.frequency ∧
        (processBuffer m o rc n).2.1.frequencyOffset = o.frequencyOffset := by
  induction n with
  | zero => intro o rc; exact ⟨rfl, rfl, rfl⟩
  | succ n ih =>
    intro o rc
    obtain ⟨g1, g2, g3⟩ := generateSample_frame m o rc
    obtain ⟨i1, i2, i3⟩ := ih (generateSample m o rc).2.1 (generateSample m o rc).2.2
    exact ⟨i1.trans g1, i2.trans g2, i3.trans g3⟩

theorem consistent_frame (m : CLib K) (o t : Oscillator K) (h1 : t.phaseStep = o.phaseStep)
    (h2 : t.frequency = o.frequency) (h3 : t.frequencyOffset = o.frequencyOffset)
    (h : PhaseStepConsistent m o) : PhaseStepConsistent m t := by
  unfold PhaseStepConsistent at h ⊢
  rw [h1, h2, h3]
  exact h

theorem consistent_osc_call (m : CLib K) (st : Oscillator K × ℕ) (c : Call K)
    (h : PhaseStepConsistent m st.1) : PhaseStepConsistent m (call m st c).1 := by
  cases c with
  | setFrequency freq => exact consistent_updatePhaseStep m _
  | setFrequencyOffset offset => exact consistent_updatePhaseStep m _
  | setWaveform wf => exact h
  | setEnabled enabled => exact h
  | setPhase newPhase => exact h
  | processBuffer n =>
    obtain ⟨p1, p2, p3⟩ := processBuffer_frame m n st.1 st.2
    exact consistent_frame m st.1 _ p1 p2 p3 h

theorem consistent_osc_runCalls (m : CLib K) (cs : List (Call K)) :
    ∀ st : Oscillator K × ℕ, PhaseStepConsistent m st.1 →
      PhaseStepConsistent m (runCalls m st cs).1 := by
  induction cs with
  | nil => intro st h; exact h
  | cons c cs ih => intro st h; exact ih _ (consistent_osc_call m st c h)

/-- C22. Additive offset and eager phase increment: after construction and
after every sequence of `setFrequency`, `setFrequencyOffset`, `setWaveform`,
`setEnabled`, `setPhase` and `processBuffer` calls the stored phase increment
is `2π*(frequency + frequencyOffset)/44100`, the offset being added in Hz (at
440 Hz with offset 12 the increment is `2π*452/44100`);
`TripleOscillator::setFrequency(f)` gives the three oscillators the base
frequency `f`, keeps their offsets and recomputes their increments. -/
theorem C22_phase_step_eager (m : CLib K) (rc : ℕ) (cs : List (Call K))
    (t : TripleOscillator K) (f : K) :
    PhaseStepConsistent m (new m) ∧
      PhaseStepConsistent m (runCalls m (new m, rc) cs).1 ∧
      (setFrequencyOffset m (setFrequency m (new m) 440) 12).phaseStep
        = 2 * m.M_PI * 452 / 44100 ∧
      ((TripleOscillator.setFrequency m t f).osc1.frequency = f ∧
        (TripleOscillator.setFrequency m t f).osc2.frequency = f ∧
        (TripleOscillator.setFrequency m t f).osc3.frequency = f) ∧
      ((TripleOscillator.setFrequency m t f).osc1.frequencyOffset = t.osc1.frequencyOffset ∧
        (TripleOscillator.setFrequency m t f).osc2.frequencyOffset = t.osc2.frequencyOffset ∧
        (TripleOscillator.setFrequency m t f).osc3.frequencyOffset = t.osc3.frequencyOffset) ∧
      (PhaseStepConsistent m (TripleOscillator.setFrequency m t f).osc1 ∧
        PhaseStepConsistent m (TripleOscillator.setFrequency m t f).osc2 ∧
        PhaseStepConsistent m (TripleOscillator.setFrequency m t f).osc3) := by
  refine ⟨consistent_updatePhaseStep m _,
    consistent_osc_runCalls m cs _ (consistent_updatePhaseStep m _), ?_,
    ⟨rfl, rfl, rfl⟩, ⟨rfl, rfl, rfl⟩,
    ⟨consistent_updatePhaseStep m _, consistent_updatePhaseStep m _,
      consistent_updatePhaseStep m _⟩⟩
  show SynthConstants.TWO_PI m * (440 + 12) / SynthConstants.SAMPLE_RATE = _
  unfold SynthConstants.TWO_PI SynthConstants.SAMPLE_RATE
  norm_num

theorem floor_wrap (x p : ℝ) (hp : 0 < p) (h0 : 0 ≤ x) (h1 : x < 2 * p) :
    (if x ≥ p then x - p else x) = x - ⌊x / p⌋ * p := by
  split_ifs with h
  · have hf : ⌊x / p⌋ = 1 := by
      rw [Int.floor_eq_iff]
      constructor
      · rw [le_div_iff₀ hp]; push_cast; linarith
      · rw [div_lt_iff₀ hp]; push_cast; linarith
    rw [hf]; push_cast; ring
  · have hf : ⌊x / p⌋ = 0 := by
      rw [Int.floor_eq_iff]
      constructor
      · push_cast; exact div_nonneg h0 (le_of_lt hp)
      · rw [div_lt_iff₀ hp]; push_cast; linarith [not_le.mp h]
    rw [hf]; push_cast; ring

/-- C23, counterexample. The condition `0 ≤ phaseStep < 2π` is not necessary
for the phase to stay in [0, 2π): a fresh oscillator (phase 0) set to 44100 Hz
has the increment 2π, which is not below 2π, and phase 0 after
`generateSample()`; set to 66150 Hz it has the increment 3π and phase π after
`generateSample()`. And a disabled Triangle oscillator at phase 0 with
increment π keeps the phase 0, which is not `(0 + π) mod 2π = π`. -/
theorem C23_condition_not_necessary :
    ((setFrequency (CLib.mk Real.pi Real.sin Real.cos Real.arcsin 1 (fun _ => 0))
        (new (CLib.mk Real.pi Real.sin Real.cos Real.arcsin 1 (fun _ => 0))) 44100).phaseStep
        = 2 * Real.pi ∧
      ¬ ((setFrequency (CLib.mk Real.pi Real.sin Real.cos Real.arcsin 1 (fun _ => 0))
        (new (CLib.mk Real.pi Real.sin Real.cos Real.arcsin 1 (fun _ => 0))) 44100).phaseStep
        < 2 * Real.pi) ∧
      PhaseInRange (CLib.mk Real.pi Real.sin Real.cos Real.arcsin 1 (fun _ => 0))
        (setFrequency (CLib.mk Real.pi Real.sin Real.cos Real.arcsin 1 (fun _ => 0))
          (new (CLib.mk Real.pi Real.sin Real.cos Real.arcsin 1 (fun _ => 0))) 44100) ∧
      (generateSample (CLib.mk Real.pi Real.sin Real.cos Real.arcsin 1 (fun _ => 0))
        (setFrequency (CLib.mk Real.pi Real.sin Real.cos Real.arcsin 1 (fun _ => 0))
          (new (CLib.mk Real.pi Real.sin Real.cos Real.arcsin 1 (fun _ => 0))) 44100)
        0).2.1.phase = 0 ∧
      PhaseInRange (CLib.mk Real.pi Real.sin Real.cos Real.arcsin 1 (fun _ => 0))
        (generateSample (CLib.mk Real.pi Real.sin Real.cos Real.arcsin 1 (fun _ => 0))
          (setFrequency (CLib.mk Real.pi Real.sin Real.cos Real.arcsin 1 (fun _ => 0))
            (new (CLib.mk Real.pi Real.sin Real.cos Real.arcsin 1 (fun _ => 0))) 44100)
          0).2.1) ∧
      ((setFrequency (CLib.mk Real.pi Real.sin Real.cos Real.arcsin 1 (fun _ => 0))
        (new (CLib.mk Real.pi Real.sin Real.cos Real.arcsin 1 (fun _ => 0))) 66150).phaseStep
        = 3 * Real.pi ∧
      (generateSample (CLib.mk Real.pi Real.sin Real.cos Real.arcsin 1 (fun _ => 0))
        (setFrequency (CLib.mk Real.pi Real.sin Real.cos Real.arcsin 1 (fun _ => 0))
          (new (CLib.mk Real.pi Real.sin Real.cos Real.arcsin 1 (fun _ => 0))) 66150)
        0).2.1.phase = Real.pi ∧
      PhaseInRange (CLib.mk Real.pi Real.sin Real.cos Real.arcsin 1 (fun _ => 0))
        (generateSample (CLib.mk Real.pi Real.sin Real.cos Real.arcsin 1 (fun _ => 0))
          (setFrequency (CLib.mk Real.pi Real.sin Real.cos Real.arcsin 1 (fun _ => 0))
            (new (CLib.mk Real.pi Real.sin Real.cos Real.arcsin 1 (fun _ => 0))) 66150)
          0).2.1) ∧
      ((generateSample (CLib.mk Real.pi Real.sin Real.cos Real.arcsin 1 (fun _ => 0))
        (Oscillator.mk 22050 0 Real.pi Waveform.Triangle false 0) 0).2.1.phase = 0 ∧
      ((0 : ℝ) + Real.pi) - ⌊((0 : ℝ) + Real.pi) / (2 * Real.pi)⌋ * (2 * Real.pi) = Real.pi ∧
      (0 : ℝ) ≠ Real.pi) := by
  have hp := Real.pi_pos
  have s1 : (setFrequency (CLib.mk Real.pi Real.sin Real.cos Real.arcsin 1 (fun _ => 0))
      (new (CLib.mk Real.pi Real.sin Real.cos Real.arcsin 1 (fun _ => 0))) 44100).phaseStep
      = 2 * Real.pi := by
    show 2 * Real.pi * (44100 + 0) / 44100 = 2 * Real.pi
    field_simp
  have s2 : (setFrequency (CLib.mk Real.pi Real.sin Real.cos Real.arcsin 1 (fun _ => 0))
      (new (CLib.mk Real.pi Real.sin Real.cos Real.arcsin 1 (fun _ => 0))) 66150).phaseStep
      = 3 * Real.pi := by
    show 2 * Real.pi * (66150 + 0) / 44100 = 3 * Real.pi
    field_simp
    ring
  have e1 : (generateSample (CLib.mk Real.pi Real.sin Real.cos Real.arcsin 1 (fun _ => 0))
      (setFrequency (CLib.mk Real.pi Real.sin Real.cos Real.arcsin 1 (fun _ => 0))
        (new (CLib.mk Real.pi Real.sin Real.cos Real.arcsin 1 (fun _ => 0))) 44100)
      0).2.1.phase = 0 := by
    show (if (0 : ℝ) + 2 * Real.pi * (44100 + 0) / 44100 ≥ 2 * Real.pi
      then (0 : ℝ) + 2 * Real.pi * (44100 + 0) / 44100 - 2 * Real.pi
      else (0 : ℝ) + 2 * Real.pi * (44100 + 0) / 44100) = 0
    have e : (0 : ℝ) + 2 * Real.pi * (44100 + 0) / 44100 = 2 * Real.pi := by
      field_simp
    rw [e, if_pos (le_refl _)]
    ring
  have e2 : (generateSample (CLib.mk Real.pi Real.sin Real.cos Real.arcsin 1 (fun _ => 0))
      (setFrequency (CLib.mk Real.pi Real.sin Real.cos Real.arcsin 1 (fun _ => 0))
        (new (CLib.mk Real.pi Real.sin Real.cos Real.arcsin 1 (fun _ => 0))) 66150)
      0).2.1.phase = Real.pi := by
    show (if (0 : ℝ) + 2 * Real.pi * (66150 + 0) / 44100 ≥ 2 * Real.pi
      then (0 : ℝ) + 2 * Real.pi * (66150 + 0) / 44100 - 2 * Real.pi
      else (0 : ℝ) + 2 * Real.pi * (66150 + 0) / 44100) = Real.pi
    have e : (0 : ℝ) + 2 * Real.pi * (66150 + 0) / 44100 = 3 * Real.pi := by
      field_simp
      ring
    rw [e, if_pos (by linarith)]
    ring
  have htwo : SynthConstants.TWO_PI (CLib.mk Real.pi Real.sin Real.cos Real.arcsin 1 (fun _ => 0))
      = 2 * Real.pi := rfl
  have hfl : ((0 : ℝ) + Real.pi) - ⌊((0 : ℝ) + Real.pi) / (2 * Real.pi)⌋ * (2 * Real.pi)
      = Real.pi := by
    rw [← floor_wrap ((0 : ℝ) + Real.pi) (2 * Real.pi) (by linarith) (by linarith)
      (by linarith), if_neg (by
        rw [ge_iff_le, not_le]
        linarith)]
    ring
  refine ⟨⟨s1, ?_, ⟨le_refl (0 : ℝ), ?_⟩, e1, ⟨?_, ?_⟩⟩, ⟨s2, e2, ⟨?_, ?_⟩⟩, rfl, hfl,
    ne_of_lt hp⟩
  · rw [s1]; exact lt_irrefl _
  · rw [htwo]
    show (0 : ℝ) < 2 * Real.pi
    linarith
  · rw [e1]
  · rw [e1, htwo]; linarith
  · rw [e2]; linarith
  · rw [e2, htwo]; linarith

/-- C23, amended. A sufficient condition for phase wrapping: for every
enabled oscillator with `0 ≤ phaseStep < 2π` and phase in [0, 2π), after
`generateSample()` with Triangle or Saw the new phase is in [0, 2π) and equals
`(phase + phaseStep) mod 2π`; with Noise the oscillator, its phase included,
is unchanged. When the increment is the stored `2π*(frequency + offset)/44100`
the condition on it is `0 ≤ frequency + offset < 44100`. -/
theorem C23_phase_wrap (m : CLib ℝ) (hm : m.IsReal) (o : Oscillator ℝ) (rc : ℕ)
    (hs0 : 0 ≤ o.phaseStep) (hs1 : o.phaseStep < 2 * Real.pi) (hp : PhaseInRange m o)
    (hen : o.isEnabled = true) :
    ((o.waveform = Waveform.Triangle ∨ o.waveform = Waveform.Saw) →
        PhaseInRange m (generateSample m o rc).2.1 ∧
        (generateSample m o rc).2.1.phase
          = (o.phase + o.phaseStep)
            - ⌊(o.phase + o.phaseStep) / (2 * Real.pi)⌋ * (2 * Real.pi)) ∧
      (o.waveform = Waveform.Noise → (generateSample m o rc).2.1 = o) ∧
      (PhaseStepConsistent m o →
        ((0 ≤ o.phaseStep ∧ o.phaseStep < 2 * Real.pi) ↔
          (0 ≤ o.frequency + o.frequencyOffset ∧ o.frequency + o.frequencyOffset < 44100))) := by
  obtain ⟨hpi, -, -, -⟩ := hm
  have hpos := Real.pi_pos
  have htwo : SynthConstants.TWO_PI m = 2 * Real.pi := by
    unfold SynthConstants.TWO_PI; rw [hpi]
  obtain ⟨hp0, hp1⟩ := hp
  rw [htwo] at hp1
  refine ⟨?_, ?_, ?_⟩
  · intro hw
    have hst : (generateSample m o rc).2.1 = advancePhase m o := by
      rcases hw with h | h <;> simp [generateSample, hen, h]
    have hph : (advancePhase m o).phase
        = (if o.phase + o.phaseStep ≥ 2 * Real.pi then o.phase + o.phaseStep - 2 * Real.pi
           else o.phase + o.phaseStep) := by
      unfold advancePhase
      simp only [htwo]
    rw [hst]
    refine ⟨advancePhase_range m o hs0 (by rw [htwo]; exact le_of_lt hs1)
      ⟨hp0, by rw [htwo]; exact hp1⟩, ?_⟩
    rw [hph]
    exact floor_wrap _ _ (by linarith) (by linarith) (by linarith)
  · intro hw
    simp [generateSample, hen, hw]
  · intro hc
    unfold PhaseStepConsistent at hc
    rw [hc, hpi]
    constructor
    · rintro ⟨a, b⟩
      rw [div_lt_iff₀ (by norm_num)] at b
      have a2 : 0 ≤ 2 * Real.pi * (o.frequency + o.frequencyOffset) := by
        have := mul_nonneg a (by norm_num : (0 : ℝ) ≤ 44100)
        rwa [div_mul_cancel₀ _ (by norm_num : (44100 : ℝ) ≠ 0)] at this
      constructor
      · by_contra hneg
        push_neg at hneg
        nlinarith
      · by_contra hge
        push_neg at hge
        nlinarith
    · rintro ⟨a, b⟩
      constructor
      · positivity
      · rw [div_lt_iff₀ (by norm_num)]
        nlinarith

/-- C23 amended, at phase 3π/2 with increment π (22050 Hz): the sum 5π/2
passes 2π, so the conditional subtraction is taken. -/
theorem C23_phase_wrap_witness :
    PhaseInRange (CLib.mk Real.pi Real.sin Real.cos Real.arcsin 1 (fun _ => 0))
        (generateSample (CLib.mk Real.pi Real.sin Real.cos Real.arcsin 1 (fun _ => 0))
          (Oscillator.mk 22050 (3 * Real.pi / 2) Real.pi Waveform.Triangle true 0) 0).2.1 ∧
      (generateSample (CLib.mk Real.pi Real.sin Real.cos Real.arcsin 1 (fun _ => 0))
          (Oscillator.mk 22050 (3 * Real.pi / 2) Real.pi Waveform.Triangle true 0) 0).2.1.phase
        = (3 * Real.pi / 2 + Real.pi)
          - ⌊(3 * Real.pi / 2 + Real.pi) / (2 * Real.pi)⌋ * (2 * Real.pi) :=
  (C23_phase_wrap (CLib.mk Real.pi Real.sin Real.cos Real.arcsin 1 (fun _ => 0))
    ⟨rfl, rfl, rfl, rfl⟩
    (Oscillator.mk 22050 (3 * Real.pi / 2) Real.pi Waveform.Triangle true 0) 0
    (le_of_lt Real.pi_pos)
    (by
      show Real.pi < 2 * Real.pi
      linarith [Real.pi_pos])
    ⟨by
      show (0 : ℝ) ≤ 3 * Real.pi / 2
      linarith [Real.pi_pos], by
      show 3 * Real.pi / 2 < 2 * Real.pi
      linarith [Real.pi_pos]⟩
    rfl).1 (Or.inl rfl)

end Oscillator

/-! ## LFO phase across the render callback -/

namespace LowPassFilter

variable {K : Type} [LinearOrderedField K]

theorem lfoActive_of (s : LowPassFilter K) (hr : 1 ≤ s.lfoFrequency) (hd : 0 < s.lfoAmount) :
    s.lfoActive = true := by
  simp [lfoActive, hr, hd]

theorem lfoInactive_of (s : LowPassFilter K) (hd : s.lfoAmount ≤ 0) : s.lfoActive = false := by
  simp [lfoActive, not_lt.mpr hd]

theorem updateLFO_phase (m : CLib K) (s : LowPassFilter K) (r sr : K)
    (hf : s.lfoFrequency = r) (hsr : s.sampleRate = sr)
    (hw : s.lfoPhase + 2 * m.M_PI * r / sr < 2 * m.M_PI) :
    (updateLFO m s).lfoPhase = s.lfoPhase + 2 * m.M_PI * r / sr := by
  show (if s.lfoPhase + 2 * m.M_PI * s.lfoFrequency / s.sampleRate ≥ 2 * m.M_PI
    then s.lfoPhase + 2 * m.M_PI * s.lfoFrequency / s.sampleRate - 2 * m.M_PI
    else s.lfoPhase + 2 * m.M_PI * s.lfoFrequency / s.sampleRate) = _
  rw [hf, hsr, if_neg (not_le.mpr hw)]

theorem ucw_active (m : CLib K) (s : LowPassFilter K) (r d sr : K)
    (hf : s.lfoFrequency = r) (ha : s.lfoAmount = d) (hsr : s.sampleRate = sr)
    (hr : 1 ≤ r) (hd : 0 < d) (hw : s.lfoPhase + 2 * m.M_PI * r / sr < 2 * m.M_PI) :
    (updateCutoffWithLFO m s).lfoPhase = s.lfoPhase + 2 * m.M_PI * r / sr ∧
      (updateCutoffWithLFO m s).lfoFrequency = r ∧ (updateCutoffWithLFO m s).lfoAmount = d ∧
      (updateCutoffWithLFO m s).sampleRate = sr := by
  have hact : s.lfoActive = true := lfoActive_of s (by rw [hf]; exact hr) (by rw [ha]; exact hd)
  unfold updateCutoffWithLFO
  rw [if_pos hact]
  exact ⟨updateLFO_phase m s r sr hf hsr hw, hf, ha, hsr⟩

theorem ucw_inactive (m : CLib K) (s : LowPassFilter K) (hd : s.lfoAmount ≤ 0) :
    (updateCutoffWithLFO m s).lfoPhase = s.lfoPhase ∧
      (updateCutoffWithLFO m s).lfoFrequency = s.lfoFrequency ∧
      (updateCutoffWithLFO m s).lfoAmount = s.lfoAmount ∧
      (updateCutoffWithLFO m s).sampleRate = s.sampleRate := by
  unfold updateCutoffWithLFO
  rw [lfoInactive_of s hd]
  exact ⟨rfl, rfl, rfl, rfl⟩

theorem applyFilterParams_steady (m : CLib K) (f : LowPassFilter K) (p : SynthParams K)
    (sr : K) (hf : f.lfoFrequency = p.filter_auto_variation_frequency)
    (ha : f.lfoAmount = p.filter_auto_variation_amount) (hsr : f.sampleRate = sr)
    (hr : 1 ≤ p.filter_auto_variation_frequency) (hd : 0 < p.filter_auto_variation_amount)
    (hs : 0 ≤ 2 * m.M_PI * p.filter_auto_variation_frequency / sr)
    (hw : f.lfoPhase + 3 * (2 * m.M_PI * p.filter_auto_variation_frequency / sr)
      < 2 * m.M_PI) :
    (AudioGenerator.applyFilterParams m f p).lfoPhase
        = f.lfoPhase + 3 * (2 * m.M_PI * p.filter_auto_variation_frequency / sr) ∧
      (AudioGenerator.applyFilterParams m f p).lfoFrequency
        = p.filter_auto_variation_frequency ∧
      (AudioGenerator.applyFilterParams m f p).lfoAmount = p.filter_auto_variation_amount ∧
      (AudioGenerator.applyFilterParams m f p).sampleRate = sr := by
  obtain ⟨a1, a2, a3, a4⟩ := ucw_active m { f with baseCutoff := p.filter_cutoff }
    p.filter_auto_variation_frequency p.filter_auto_variation_amount sr hf ha hsr hr hd
    (by show f.lfoPhase + _ < _; linarith)
  obtain ⟨b1, b2, b3, b4⟩ := ucw_active m
    { setResonance m (setCutoff m f p.filter_cutoff) p.filter_resonance with
      lfoFrequency := p.filter_auto_variation_frequency }
    p.filter_auto_variation_frequency p.filter_auto_variation_amount sr rfl a3 a4 hr hd
    (by
      show (updateCutoffWithLFO m { f with baseCutoff := p.filter_cutoff }).lfoPhase + _ < _
      rw [a1]
      show f.lfoPhase + _ + _ < _
      linarith)
  obtain ⟨c1, c2, c3, c4⟩ := ucw_active m
    { setAutoVariationFrequency m
        (setResonance m (setCutoff m f p.filter_cutoff) p.filter_resonance)
        p.filter_auto_variation_frequency with
      lfoAmount := p.filter_auto_variation_amount }
    p.filter_auto_variation_frequency p.filter_auto_variation_amount sr b2 rfl b4 hr hd
    (by
      show (updateCutoffWithLFO m
        { setResonance m (setCutoff m f p.filter_cutoff) p.filter_resonance with
          lfoFrequency := p.filter_auto_variation_frequency }).lfoPhase + _ < _
      rw [b1]
      show (updateCutoffWithLFO m { f with baseCutoff := p.filter_cutoff }).lfoPhase + _ + _ < _
      rw [a1]
      show f.lfoPhase + _ + _ + _ < _
      linarith)
  refine ⟨?_, c2, c3, c4⟩
  show (updateCutoffWithLFO m
    { setAutoVariationFrequency m
        (setResonance m (setCutoff m f p.filter_cutoff) p.filter_resonance)
        p.filter_auto_variation_frequency with
      lfoAmount := p.filter_auto_variation_amount }).lfoPhase = _
  rw [c1]
  show (updateCutoffWithLFO m
    { setResonance m (setCutoff m f p.filter_cutoff) p.filter_resonance with
      lfoFrequency := p.filter_auto_variation_frequency }).lfoPhase + _ = _
  rw [b1]
  show (updateCutoffWithLFO m { f with baseCutoff := p.filter_cutoff }).lfoPhase + _ + _ = _
  rw [a1]
  show f.lfoPhase + _ + _ + _ = _
  ring

theorem applyFilterParams_first (m : CLib K) (f : LowPassFilter K) (p : SynthParams K)
    (sr : K) (h0 : f.lfoAmount ≤ 0) (hsr : f.sampleRate = sr)
    (hr : 1 ≤ p.filter_auto_variation_frequency) (hd : 0 < p.filter_auto_variation_amount)
    (hw : f.lfoPhase + 2 * m.M_PI * p.filter_auto_variation_frequency / sr < 2 * m.M_PI) :
    (AudioGenerator.applyFilterParams m f p).lfoPhase
        = f.lfoPhase + 2 * m.M_PI * p.filter_auto_variation_frequency / sr ∧
      (AudioGenerator.applyFilterParams m f p).lfoFrequency
        = p.filter_auto_variation_frequency ∧
      (AudioGenerator.applyFilterParams m f p).lfoAmount = p.filter_auto_variation_amount ∧
      (AudioGenerator.applyFilterParams m f p).sampleRate = sr := by
  obtain ⟨a1, -, a3, a4⟩ := ucw_inactive m { f with baseCutoff := p.filter_cutoff } h0
  obtain ⟨b1, b2, b3, b4⟩ := ucw_inactive m
    { setResonance m (setCutoff m f p.filter_cutoff) p.filter_resonance with
      lfoFrequency := p.filter_auto_variation_frequency }
    (by
      show (updateCutoffWithLFO m { f with baseCutoff := p.filter_cutoff }).lfoAmount ≤ 0
      rw [a3]; exact h0)
  have e1 : (setAutoVariationFrequency m
      (setResonance m (setCutoff m f p.filter_cutoff) p.filter_resonance)
      p.filter_auto_variation_frequency).lfoPhase = f.lfoPhase := by
    show (updateCutoffWithLFO m
      { setResonance m (setCutoff m f p.filter_cutoff) p.filter_resonance with
        lfoFrequency := p.filter_auto_variation_frequency }).lfoPhase = _
    rw [b1]
    exact a1
  have e4 : (setAutoVariationFrequency m
      (setResonance m (setCutoff m f p.filter_cutoff) p.filter_resonance)
      p.filter_auto_variation_frequency).sampleRate = sr := by
    show (updateCutoffWithLFO m
      { setResonance m (setCutoff m f p.filter_cutoff) p.filter_resonance with
        lfoFrequency := p.filter_auto_variation_frequency }).sampleRate = _
    rw [b4]
    exact a4.trans hsr
  obtain ⟨c1, c2, c3, c4⟩ := ucw_active m
    { setAutoVariationFrequency m
        (setResonance m (setCutoff m f p.filter_cutoff) p.filter_resonance)
        p.filter_auto_variation_frequency with
      lfoAmount := p.filter_auto_variation_amount }
    p.filter_auto_variation_frequency p.filter_auto_variation_amount sr b2 rfl e4 hr hd
    (by
      show (setAutoVariationFrequency m
        (setResonance m (setCutoff m f p.filter_cutoff) p.filter_resonance)
        p.filter_auto_variation_frequency).lfoPhase + _ < _
      rw [e1]
      exact hw)
  refine ⟨?_, c2, c3, c4⟩
  show (updateCutoffWithLFO m
    { setAutoVariationFrequency m
        (setResonance m (setCutoff m f p.filter_cutoff) p.filter_resonance)
        p.filter_auto_variation_frequency with
      lfoAmount := p.filter_auto_variation_amount }).lfoPhase = _
  rw [c1]
  show (setAutoVariationFrequency m
    (setResonance m (setCutoff m f p.filter_cutoff) p.filter_resonance)
    p.filter_auto_variation_frequency).lfoPhase + _ = _
  rw [e1]

theorem process_lfo_phase (m : CLib K) (s : LowPassFilter K) (x r d sr : K)
    (hf : s.lfoFrequency = r) (ha : s.lfoAmount = d) (hsr : s.sampleRate = sr)
    (hr : 1 ≤ r) (hd : 0 < d) (hw : s.lfoPhase + 2 * m.M_PI * r / sr < 2 * m.M_PI) :
    (process m s x).1.lfoPhase = s.lfoPhase + 2 * m.M_PI * r / sr ∧
      (process m s x).1.lfoFrequency = r ∧ (process m s x).1.lfoAmount = d ∧
      (process m s x).1.sampleRate = sr := by
  have hact : s.lfoActive = true := lfoActive_of s (by rw [hf]; exact hr) (by rw [ha]; exact hd)
  unfold process
  rw [if_pos hact]
  exact ⟨updateLFO_phase m s r sr hf hsr hw, hf, ha, hsr⟩

theorem processAll_lfo_phase (m : CLib K) (r d sr : K) (hr : 1 ≤ r) (hd : 0 < d)
    (hs : 0 ≤ 2 * m.M_PI * r / sr) (l : List K) :
    ∀ s : LowPassFilter K, s.lfoFrequency = r → s.lfoAmount = d → s.sampleRate = sr →
      s.lfoPhase + l.length * (2 * m.M_PI * r / sr) < 2 * m.M_PI →
      (processAll m s l).1.lfoPhase = s.lfoPhase + l.length * (2 * m.M_PI * r / sr) := by
  induction l with
  | nil => intro s _ _ _ _; simp [processAll]
  | cons x xs ih =>
    intro s hf ha hsr hw
    simp only [List.length_cons, Nat.cast_add, Nat.cast_one] at hw ⊢
    have hxs : (0 : K) ≤ (xs.length : K) * (2 * m.M_PI * r / sr) :=
      mul_nonneg (Nat.cast_nonneg _) hs
    obtain ⟨p1, p2, p3, p4⟩ := process_lfo_phase m s x r d sr hf ha hsr hr hd (by linarith)
    show (processAll m (process m s x).1 xs).1.lfoPhase = _
    rw [ih (process m s x).1 p2 p3 p4 (by rw [p1]; linarith), p1]
    ring

end LowPassFilter

namespace AudioGenerator

variable {K : Type} [LinearOrderedField K]

theorem audioCallback_filter (m : CLib K) (g : AudioGenerator K) (p : ParamStore K)
    (rc n : ℕ) (hn : n ≤ FRAMES_PER_BUFFER) :
    ∃ r, audioCallback m g p rc n = some r ∧
      r.2.1.filter
        = (LowPassFilter.processAll m (applyFilterParams m g.filter p.toSynthParams)
            ((TripleOscillator.processBuffer m (prepareOscillator m g p) rc
              FRAMES_PER_BUFFER).1.take n)).1 := by
  have hlen := mixer_length m (prepareOscillator m g p) rc FRAMES_PER_BUFFER
  have hloop := sampleLoop_some m p.volume
    (TripleOscillator.processBuffer m (prepareOscillator m g p) rc FRAMES_PER_BUFFER).1 n 0
    (applyFilterParams m g.filter p.toSynthParams) (by rw [hlen]; omega)
  rw [List.drop_zero] at hloop
  unfold audioCallback
  simp only
  rw [hloop]
  exact ⟨_, rfl, rfl⟩

/-- C21, the code at the failing input. Parameter store: LFO rate 10 Hz, depth
1/2, never changed. On a fresh generator (LFO phase 0) the parameter push of
the callback advances the LFO phase by one step `2π*10/44100` before any
sample is filtered; pushing the same parameters again advances it by three
more steps; and after the first callback of 256 frames the LFO phase is 257
steps, not 256 (both below 2π, so they differ modulo 2π as well). -/
theorem C21_lfo_advanced_by_setters :
    (applyFilterParams
        (CLib.mk Real.pi Real.sin Real.cos Real.arcsin 1 (fun _ => 0))
        (AudioGenerator.new
        (CLib.mk Real.pi Real.sin Real.cos Real.arcsin 1 (fun _ => 0))).filter
        (ParamStore.mk (SynthParams.mk 20000 0 10 (1 / 2)) 440 (1 / 10) (1 / 2) 1).toSynthParams).lfoPhase = 2 * Real.pi * 10 / 44100 ∧
      (applyFilterParams
        (CLib.mk Real.pi Real.sin Real.cos Real.arcsin 1 (fun _ => 0))
        (applyFilterParams
        (CLib.mk Real.pi Real.sin Real.cos Real.arcsin 1 (fun _ => 0))
        (AudioGenerator.new
        (CLib.mk Real.pi Real.sin Real.cos Real.arcsin 1 (fun _ => 0))).filter
        (ParamStore.mk (SynthParams.mk 20000 0 10 (1 / 2)) 440 (1 / 10) (1 / 2) 1).toSynthParams)
        (ParamStore.mk (SynthParams.mk 20000 0 10 (1 / 2)) 440 (1 / 10) (1 / 2) 1).toSynthParams).lfoPhase
        = 2 * Real.pi * 10 / 44100 + 3 * (2 * Real.pi * 10 / 44100) ∧
      (∃ r, audioCallback
        (CLib.mk Real.pi Real.sin Real.cos Real.arcsin 1 (fun _ => 0))
        (AudioGenerator.new
        (CLib.mk Real.pi Real.sin Real.cos Real.arcsin 1 (fun _ => 0)))
        (ParamStore.mk (SynthParams.mk 20000 0 10 (1 / 2)) 440 (1 / 10) (1 / 2) 1) 0 256 = some r ∧
        r.2.1.filter.lfoPhase = 257 * (2 * Real.pi * 10 / 44100)) ∧
      (AudioGenerator.new
        (CLib.mk Real.pi Real.sin Real.cos Real.arcsin 1 (fun _ => 0))).filter.lfoPhase = 0 ∧
      257 * (2 * Real.pi * 10 / 44100) < 2 * Real.pi ∧
      257 * (2 * Real.pi * 10 / 44100) ≠ 0 + 256 * (2 * Real.pi * 10 / 44100) := by
  have hpi := Real.pi_pos
  have hst : (0 : ℝ) ≤ 2 * Real.pi * 10 / 44100 := by positivity
  have h10 : (1 : ℝ) ≤ 10 := by norm_num
  have hhalf : (0 : ℝ) < 1 / 2 := by norm_num
  obtain ⟨f1, f2, f3, f4⟩ := LowPassFilter.applyFilterParams_first
    (CLib.mk Real.pi Real.sin Real.cos Real.arcsin 1 (fun _ => 0))
    (AudioGenerator.new
        (CLib.mk Real.pi Real.sin Real.cos Real.arcsin 1 (fun _ => 0))).filter
    (ParamStore.mk (SynthParams.mk 20000 0 10 (1 / 2)) 440 (1 / 10) (1 / 2) 1).toSynthParams 44100 (le_refl (0 : ℝ)) rfl h10 hhalf
    (by
      show (0 : ℝ) + 2 * Real.pi * 10 / 44100 < 2 * Real.pi
      rw [zero_add, div_lt_iff₀ (by norm_num)]
      nlinarith)
  have e1 : (applyFilterParams
        (CLib.mk Real.pi Real.sin Real.cos Real.arcsin 1 (fun _ => 0))
        (AudioGenerator.new
        (CLib.mk Real.pi Real.sin Real.cos Real.arcsin 1 (fun _ => 0))).filter
        (ParamStore.mk (SynthParams.mk 20000 0 10 (1 / 2)) 440 (1 / 10) (1 / 2) 1).toSynthParams).lfoPhase = 2 * Real.pi * 10 / 44100 :=
    f1.trans (zero_add _)
  refine ⟨e1, ?_, ?_, rfl, ?_, ?_⟩
  · obtain ⟨s1, -, -, -⟩ := LowPassFilter.applyFilterParams_steady
      (CLib.mk Real.pi Real.sin Real.cos Real.arcsin 1 (fun _ => 0))
      (applyFilterParams
        (CLib.mk Real.pi Real.sin Real.cos Real.arcsin 1 (fun _ => 0))
        (AudioGenerator.new
        (CLib.mk Real.pi Real.sin Real.cos Real.arcsin 1 (fun _ => 0))).filter
        (ParamStore.mk (SynthParams.mk 20000 0 10 (1 / 2)) 440 (1 / 10) (1 / 2) 1).toSynthParams)
      (ParamStore.mk (SynthParams.mk 20000 0 10 (1 / 2)) 440 (1 / 10) (1 / 2) 1).toSynthParams 44100 f2 f3 f4 h10 hhalf hst
      (by
        rw [e1]
        show 2 * Real.pi * 10 / 44100 + 3 * (2 * Real.pi * 10 / 44100) < 2 * Real.pi
        rw [← sub_pos]
        have : 2 * Real.pi - (2 * Real.pi * 10 / 44100 + 3 * (2 * Real.pi * 10 / 44100))
            = Real.pi * (2 - 80 / 44100) := by ring
        rw [this]
        exact mul_pos hpi (by norm_num))
    rw [s1, e1]
  · obtain ⟨r, hr1, hr2⟩ := audioCallback_filter
      (CLib.mk Real.pi Real.sin Real.cos Real.arcsin 1 (fun _ => 0))
      (AudioGenerator.new
        (CLib.mk Real.pi Real.sin Real.cos Real.arcsin 1 (fun _ => 0)))
      (ParamStore.mk (SynthParams.mk 20000 0 10 (1 / 2)) 440 (1 / 10) (1 / 2) 1) 0 256 (by decide)
    refine ⟨r, hr1, ?_⟩
    have hlen : ((TripleOscillator.processBuffer
        (CLib.mk Real.pi Real.sin Real.cos Real.arcsin 1 (fun _ => 0))
        (prepareOscillator
          (CLib.mk Real.pi Real.sin Real.cos Real.arcsin 1 (fun _ => 0))
          (AudioGenerator.new
        (CLib.mk Real.pi Real.sin Real.cos Real.arcsin 1 (fun _ => 0)))
          (ParamStore.mk (SynthParams.mk 20000 0 10 (1 / 2)) 440 (1 / 10) (1 / 2) 1)) 0
        FRAMES_PER_BUFFER).1.take 256).length = 256 := by
      rw [List.length_take, mixer_length]
      rfl
    have hall := LowPassFilter.processAll_lfo_phase
      (CLib.mk Real.pi Real.sin Real.cos Real.arcsin 1 (fun _ => 0)) 10 (1 / 2) 44100 h10 hhalf hst
      ((TripleOscillator.processBuffer
        (CLib.mk Real.pi Real.sin Real.cos Real.arcsin 1 (fun _ => 0))
        (prepareOscillator
          (CLib.mk Real.pi Real.sin Real.cos Real.arcsin 1 (fun _ => 0))
          (AudioGenerator.new
        (CLib.mk Real.pi Real.sin Real.cos Real.arcsin 1 (fun _ => 0)))
          (ParamStore.mk (SynthParams.mk 20000 0 10 (1 / 2)) 440 (1 / 10) (1 / 2) 1)) 0
        FRAMES_PER_BUFFER).1.take 256)
      (applyFilterParams
        (CLib.mk Real.pi Real.sin Real.cos Real.arcsin 1 (fun _ => 0))
        (AudioGenerator.new
        (CLib.mk Real.pi Real.sin Real.cos Real.arcsin 1 (fun _ => 0))).filter
        (ParamStore.mk (SynthParams.mk 20000 0 10 (1 / 2)) 440 (1 / 10) (1 / 2) 1).toSynthParams)
      f2 f3 f4
      (by
        rw [hlen, e1]
        show 2 * Real.pi * 10 / 44100 + ((256 : ℕ) : ℝ) * (2 * Real.pi * 10 / 44100)
          < 2 * Real.pi
        rw [← sub_pos]
        have : 2 * Real.pi
            - (2 * Real.pi * 10 / 44100 + ((256 : ℕ) : ℝ) * (2 * Real.pi * 10 / 44100))
            = Real.pi * (2 - 5140 / 44100) := by push_cast; ring
        rw [this]
        exact mul_pos hpi (by norm_num))
    rw [hlen, e1] at hall
    rw [hr2]
    refine Eq.trans hall ?_
    push_cast
    ring
  · rw [← sub_pos]
    have : 2 * Real.pi - 257 * (2 * Real.pi * 10 / 44100)
        = Real.pi * (2 - 5140 / 44100) := by ring
    rw [this]
    exact mul_pos hpi (by norm_num)
  · intro h
    have : Real.pi * (20 / 44100) = 0 := by linarith
    rcases mul_eq_zero.mp this with h1 | h1
    · exact (ne_of_gt hpi) h1
    · norm_num at h1

end AudioGenerator

/-! ## Quiescent filter with `float` infinities and NaN -/

namespace XFloat

theorem eq_fin_of_isFinite {K : Type} (a : XFloat K) (h : a.isFinite = true) :
    ∃ x : K, a = fin x := by
  cases a with
  | fin x => exact ⟨x, rfl⟩
  | inf n => simp [isFinite] at h
  | nan => simp [isFinite] at h

end XFloat

namespace FloatFilter

variable {K : Type} [LinearOrderedField K]

open XFloat

theorem add_nan_left (b : XFloat K) : add nan b = nan := by
  cases b <;> rfl

theorem sub_nan_left (b : XFloat K) : sub nan b = nan := by
  cases b <;> rfl

theorem inForce_history (m : CLib K) (s : LowPassFilter (XFloat K)) :
    (inForce m s).x1 = s.x1 ∧ (inForce m s).x2 = s.x2 ∧ (inForce m s).y1 = s.y1 ∧
      (inForce m s).y2 = s.y2 := by
  unfold inForce
  split_ifs
  · exact ⟨rfl, rfl, rfl, rfl⟩
  · exact ⟨rfl, rfl, rfl, rfl⟩

theorem process_zero_finite (m : CLib K) (s : LowPassFilter (XFloat K)) (hq : Quiescent s)
    (hfin : CoefficientsFinite (inForce m s)) :
    (process m s (fin 0)).2 = fin 0 ∧ Quiescent (process m s (fin 0)).1 := by
  obtain ⟨q1, q2, q3, q4⟩ := hq
  obtain ⟨h1, h2, h3, h4⟩ := inForce_history m s
  obtain ⟨f0, f1, f2, f3, f4⟩ := hfin
  obtain ⟨a0, e0⟩ := eq_fin_of_isFinite _ f0
  obtain ⟨a1, e1⟩ := eq_fin_of_isFinite _ f1
  obtain ⟨a2, e2⟩ := eq_fin_of_isFinite _ f2
  obtain ⟨b1, e3⟩ := eq_fin_of_isFinite _ f3
  obtain ⟨b2, e4⟩ := eq_fin_of_isFinite _ f4
  have hout : (process m s (fin 0)).2 = fin 0 := by
    show sub (sub (add (add (mul (inForce m s).a0 (fin 0))
      (mul (inForce m s).a1 (inForce m s).x1)) (mul (inForce m s).a2 (inForce m s).x2))
      (mul (inForce m s).b1 (inForce m s).y1)) (mul (inForce m s).b2 (inForce m s).y2) = fin 0
    rw [e0, e1, e2, e3, e4, h1, h2, h3, h4, q1, q2, q3, q4]
    simp [XFloat.sub, XFloat.add, XFloat.mul, XFloat.neg]
  refine ⟨hout, ?_, ?_, ?_, ?_⟩
  · rfl
  · show (inForce m s).x1 = fin 0
    rw [h1, q1]
  · exact hout
  · show (inForce m s).y1 = fin 0
    rw [h3, q3]

theorem zero_run_finite (m : CLib K) (n : ℕ) :
    ∀ s : LowPassFilter (XFloat K), Quiescent s →
      (∀ k : ℕ, k < n → CoefficientsFinite (inForce m (zeroRun m s k))) →
      (processAll m s (List.replicate n (fin 0))).2 = List.replicate n (fin 0) ∧
        (processAll m s (List.replicate n (fin 0))).1 = zeroRun m s n ∧
        Quiescent (zeroRun m s n) := by
  induction n with
  | zero => intro s hq _; exact ⟨rfl, rfl, hq⟩
  | succ n ih =>
    intro s hq hfin
    obtain ⟨p1, p2⟩ := process_zero_finite m s hq (hfin 0 (Nat.succ_pos n))
    obtain ⟨i1, i2, i3⟩ := ih (process m s (fin 0)).1 p2
      (fun k hk => hfin (k + 1) (Nat.succ_lt_succ hk))
    refine ⟨?_, i2, i3⟩
    show (process m s (fin 0)).2
      :: (processAll m (process m s (fin 0)).1 (List.replicate n (fin 0))).2 = _
    rw [p1, i1]
    rfl

theorem process_inactive_frame (m : CLib K) (s : LowPassFilter (XFloat K)) (x : XFloat K)
    (h : lfoActive s = false) :
    lfoActive (process m s x).1 = false ∧ (process m s x).1.a0 = s.a0 ∧
      (process m s x).1.a1 = s.a1 ∧ (process m s x).1.a2 = s.a2 ∧
      (process m s x).1.b1 = s.b1 ∧ (process m s x).1.b2 = s.b2 := by
  have hin : inForce m s = s := by
    unfold inForce
    rw [h]
    rfl
  unfold process
  simp only
  rw [hin]
  exact ⟨h, rfl, rfl, rfl, rfl, rfl⟩

theorem inactive_run_finite (m : CLib K) (k : ℕ) :
    ∀ s : LowPassFilter (XFloat K), lfoActive s = false → CoefficientsFinite s →
      CoefficientsFinite (inForce m (zeroRun m s k)) := by
  induction k with
  | zero =>
    intro s h hf
    have hin : inForce m s = s := by
      unfold inForce
      rw [h]
      rfl
    show CoefficientsFinite (inForce m s)
    rw [hin]
    exact hf
  | succ k ih =>
    intro s h hf
    obtain ⟨p0, p1, p2, p3, p4, p5⟩ := process_inactive_frame m s (fin 0) h
    refine ih (process m s (fin 0)).1 p0 ?_
    unfold CoefficientsFinite
    rw [p1, p2, p3, p4, p5]
    exact hf

/-- C4, counterexample. With resonance 2 and cutoff 11025 Hz set on a fresh
filter (sample rate 44100, LFO off, history all zero) the divisor `1 + alpha`
is zero, the coefficient `a0` is infinite, and `process(0)` returns NaN, not
0. -/
theorem C4_infinite_coefficient_gives_nan :
    Quiescent
        (setCutoff (CLib.mk Real.pi Real.sin Real.cos Real.arcsin 1 (fun _ => 0))
          (setResonance (CLib.mk Real.pi Real.sin Real.cos Real.arcsin 1 (fun _ => 0))
            (FloatFilter.new (CLib.mk Real.pi Real.sin Real.cos Real.arcsin 1 (fun _ => 0))
              (fin 44100)) (fin 2)) (fin 11025)) ∧
      (setCutoff (CLib.mk Real.pi Real.sin Real.cos Real.arcsin 1 (fun _ => 0))
          (setResonance (CLib.mk Real.pi Real.sin Real.cos Real.arcsin 1 (fun _ => 0))
            (FloatFilter.new (CLib.mk Real.pi Real.sin Real.cos Real.arcsin 1 (fun _ => 0))
              (fin 44100)) (fin 2)) (fin 11025)).a0 = inf false ∧
      (process (CLib.mk Real.pi Real.sin Real.cos Real.arcsin 1 (fun _ => 0))
          (setCutoff (CLib.mk Real.pi Real.sin Real.cos Real.arcsin 1 (fun _ => 0))
            (setResonance (CLib.mk Real.pi Real.sin Real.cos Real.arcsin 1 (fun _ => 0))
              (FloatFilter.new (CLib.mk Real.pi Real.sin Real.cos Real.arcsin 1 (fun _ => 0))
                (fin 44100)) (fin 2)) (fin 11025)) (fin 0)).2 = nan := by
  have hω : 2 * Real.pi * 11025 / 44100 = Real.pi / 2 := by
    field_simp
    ring
  have hinact : lfoActive
      (setCutoff (CLib.mk Real.pi Real.sin Real.cos Real.arcsin 1 (fun _ => 0))
        (setResonance (CLib.mk Real.pi Real.sin Real.cos Real.arcsin 1 (fun _ => 0))
          (FloatFilter.new (CLib.mk Real.pi Real.sin Real.cos Real.arcsin 1 (fun _ => 0))
            (fin 44100)) (fin 2)) (fin 11025)) = false := by
    simp [lfoActive, setCutoff, setResonance, FloatFilter.new, updateCutoffWithLFO,
      updateCoefficients, XFloat.le, XFloat.lt]
  have ha0 : (setCutoff (CLib.mk Real.pi Real.sin Real.cos Real.arcsin 1 (fun _ => 0))
      (setResonance (CLib.mk Real.pi Real.sin Real.cos Real.arcsin 1 (fun _ => 0))
        (FloatFilter.new (CLib.mk Real.pi Real.sin Real.cos Real.arcsin 1 (fun _ => 0))
          (fin 44100)) (fin 2)) (fin 11025)).a0 = inf false := by
    simp [lfoActive, setCutoff, setResonance, FloatFilter.new, updateCutoffWithLFO,
      updateCoefficients, XFloat.le, XFloat.lt, XFloat.sub, XFloat.add, XFloat.neg,
      XFloat.mul, XFloat.div, XFloat.sin, XFloat.cos, hω]
    norm_num
  refine ⟨⟨?_, ?_, ?_, ?_⟩, ha0, ?_⟩
  · simp [setCutoff, setResonance, FloatFilter.new, updateCutoffWithLFO, updateCoefficients,
      lfoActive, XFloat.le, XFloat.lt]
  · simp [setCutoff, setResonance, FloatFilter.new, updateCutoffWithLFO, updateCoefficients,
      lfoActive, XFloat.le, XFloat.lt]
  · simp [setCutoff, setResonance, FloatFilter.new, updateCutoffWithLFO, updateCoefficients,
      lfoActive, XFloat.le, XFloat.lt]
  · simp [setCutoff, setResonance, FloatFilter.new, updateCutoffWithLFO, updateCoefficients,
      lfoActive, XFloat.le, XFloat.lt]
  · have hin : inForce (CLib.mk Real.pi Real.sin Real.cos Real.arcsin 1 (fun _ => 0))
        (setCutoff (CLib.mk Real.pi Real.sin Real.cos Real.arcsin 1 (fun _ => 0))
          (setResonance (CLib.mk Real.pi Real.sin Real.cos Real.arcsin 1 (fun _ => 0))
            (FloatFilter.new (CLib.mk Real.pi Real.sin Real.cos Real.arcsin 1 (fun _ => 0))
              (fin 44100)) (fin 2)) (fin 11025))
        = setCutoff (CLib.mk Real.pi Real.sin Real.cos Real.arcsin 1 (fun _ => 0))
          (setResonance (CLib.mk Real.pi Real.sin Real.cos Real.arcsin 1 (fun _ => 0))
            (FloatFilter.new (CLib.mk Real.pi Real.sin Real.cos Real.arcsin 1 (fun _ => 0))
              (fin 44100)) (fin 2)) (fin 11025) := by
      unfold inForce
      rw [hinact]
      rfl
    unfold process
    simp only
    rw [hin, ha0]
    have hm : mul (inf false) (fin (0 : ℝ)) = nan := by simp [XFloat.mul]
    rw [hm, add_nan_left, add_nan_left, sub_nan_left, sub_nan_left]

/-- C4, amended. Quiescent fixed point: if the four history samples are zero
and the five coefficients in force for each sample are finite numbers, every
call `process(0)` returns 0 and leaves the four history samples zero, so the
zero-input sequence of any length gives the all-zero output sequence. -/
theorem C4_quiescent_fixed_point (m : CLib K) (s : LowPassFilter (XFloat K)) (n : ℕ)
    (hq : Quiescent s)
    (hfin : ∀ k : ℕ, k < n → CoefficientsFinite (inForce m (zeroRun m s k))) :
    (0 < n → (process m s (fin 0)).2 = fin 0 ∧ Quiescent (process m s (fin 0)).1) ∧
      (processAll m s (List.replicate n (fin 0))).2 = List.replicate n (fin 0) ∧
      (processAll m s (List.replicate n (fin 0))).1 = zeroRun m s n ∧
      Quiescent (zeroRun m s n) :=
  ⟨fun hn => process_zero_finite m s hq (hfin 0 hn), zero_run_finite m n s hq hfin⟩

/-- C4 amended, on a freshly constructed filter with the LFO switched on (rate
10 Hz, depth 1/2), where `process` recomputes the coefficients: one zero
sample, over ℚ. -/
theorem C4_quiescent_fixed_point_witness :
    (process CLib.toy
        (setAutoVariationAmount CLib.toy
          (setAutoVariationFrequency CLib.toy (FloatFilter.new CLib.toy (fin 44100)) (fin 10))
          (fin (1 / 2))) (fin 0)).2 = fin 0 ∧
      Quiescent (process CLib.toy
        (setAutoVariationAmount CLib.toy
          (setAutoVariationFrequency CLib.toy (FloatFilter.new CLib.toy (fin 44100)) (fin 10))
          (fin (1 / 2))) (fin 0)).1 :=
  (C4_quiescent_fixed_point CLib.toy
    (setAutoVariationAmount CLib.toy
      (setAutoVariationFrequency CLib.toy (FloatFilter.new CLib.toy (fin 44100)) (fin 10))
      (fin (1 / 2))) 1
    (by
      simp [Quiescent, setAutoVariationAmount, setAutoVariationFrequency, FloatFilter.new,
        updateCutoffWithLFO, updateLFO, updateCoefficients, lfoActive, XFloat.le, XFloat.lt])
    (by
      intro k hk
      have hk0 : k = 0 := by omega
      subst hk0
      show CoefficientsFinite (inForce CLib.toy
        (setAutoVariationAmount CLib.toy
          (setAutoVariationFrequency CLib.toy (FloatFilter.new CLib.toy (fin 44100)) (fin 10))
          (fin (1 / 2))))
      simp [CoefficientsFinite, inForce, setAutoVariationAmount, setAutoVariationFrequency,
        FloatFilter.new, updateCutoffWithLFO, updateLFO, updateCoefficients, lfoActive,
        XFloat.le, XFloat.lt, XFloat.sub, XFloat.add, XFloat.neg, XFloat.mul, XFloat.div,
        XFloat.sin, XFloat.cos, XFloat.stdMax, XFloat.stdMin, XFloat.isFinite, CLib.toy]
      norm_num [XFloat.isFinite, XFloat.mul, XFloat.div, XFloat.add, XFloat.sub, XFloat.neg,
        XFloat.lt, XFloat.le, XFloat.stdMax, XFloat.stdMin])).1 Nat.one_pos

end FloatFilter

end AudioSynth
